import Mathlib

/-!
Verification development for the QnAHub backend (FastAPI + MongoDB).

The state of the system is the content of the Mongo collections
(`representative_questions`, `raw_questions`, `answers`, `likes`), modelled
as Lean lists of structures.  BSON ObjectIds are modelled as natural
numbers; the string form of an ObjectId is its 24-digit hexadecimal
rendering, and `ObjectId(s)` succeeds exactly on 24-character hex strings.
Since every write in the model stores the canonical representation, the
source's string/ObjectId fallback chains (`check_user_already_liked`,
`remove_like`, the raw-question cascade in `create_answer_for_question`)
collapse to a single canonical lookup, which is how they are embedded.

The external text-generation service ("oracle") is an input of each
embedded function: an `Except Unit String` describing the outcome of the
one `generate_content_async` call a function makes.  `json.loads` (Python
standard library, external to the repository) is likewise a parameter
`parse : String → Option (List Group)`, where `some gs` means "the text
parses as a JSON array of group objects".

Python string primitives used by the source (`str.strip`, `str.replace`,
`str.startswith`, `str.lower`) are re-implemented below on `List Char`
with structural recursion so that all definitions evaluate by `decide`.
-/

/-- Whitespace characters removed by Python's `str.strip()`. -/
def pyIsSpace (c : Char) : Bool :=
  c = ' ' || c = '\t' || c = '\n' || c = '\r' || c = '\x0b' || c = '\x0c'

/-- Model of Python `str.strip()` on a character list. -/
def listStrip (l : List Char) : List Char :=
  ((l.dropWhile pyIsSpace).reverse.dropWhile pyIsSpace).reverse

/-- Model of Python `str.strip()`. -/
def pyStrip (s : String) : String := ⟨listStrip s.data⟩

/-- Drops as many elements as `pat` has; structural helper for `replaceFuel`. -/
def dropLen (pat : List Char) (l : List Char) : List Char :=
  match pat, l with
  | [], l => l
  | _ :: _, [] => []
  | _ :: ps, _ :: ls => dropLen ps ls

/-- Fuel-driven core of Python `str.replace`: replaces non-overlapping
occurrences of `pat` left to right.  The fuel starts at the length of the
list, which suffices because each step consumes at least one character. -/
def replaceFuel (pat rep : List Char) : Nat → List Char → List Char
  | 0, l => l
  | _ + 1, [] => []
  | n + 1, c :: cs =>
    if !pat.isEmpty && pat.isPrefixOf (c :: cs) then
      rep ++ replaceFuel pat rep n (dropLen pat.tail cs)
    else
      c :: replaceFuel pat rep n cs

/-- Model of Python `str.replace(old, new)`. -/
def pyReplace (s pat rep : String) : String :=
  ⟨replaceFuel pat.data rep.data s.data.length s.data⟩

/-- Model of Python `str.startswith(pre)`. -/
def pyStartsWith (s pre : String) : Bool := pre.data.isPrefixOf s.data

/-- Model of Python `str.lower()` (ASCII is all the call sites need). -/
def pyLower (s : String) : String := ⟨s.data.map Char.toLower⟩

/-- Decides whether a character is a hexadecimal digit. -/
def isHexDigit (c : Char) : Bool :=
  c.isDigit || ('a' ≤ c && c ≤ 'f') || ('A' ≤ c && c ≤ 'F')

/-- Numeric value of a hexadecimal digit. -/
def hexVal (c : Char) : Nat :=
  if c.isDigit then c.toNat - 48
  else if 'a' ≤ c && c ≤ 'f' then c.toNat - 87
  else c.toNat - 55

/-- Model of `bson.ObjectId(s)` on strings: succeeds exactly on 24-character
hexadecimal strings, and yields the numeric value of the id. -/
def objectIdOfString (s : String) : Option Nat :=
  if s.data.length = 24 && s.data.all isHexDigit then
    some (s.data.foldl (fun a c => a * 16 + hexVal c) 0)
  else
    none

/-- Hexadecimal digit character for a value below 16. -/
def hexDigitChar (n : Nat) : Char :=
  if n < 10 then Char.ofNat (48 + n) else Char.ofNat (87 + n)

/-- Fixed-width hexadecimal rendering, used as `str(ObjectId)`. -/
def toHexAux : Nat → Nat → List Char → List Char
  | 0, _, acc => acc
  | w + 1, n, acc => toHexAux w (n / 16) (hexDigitChar (n % 16) :: acc)

/-- Model of `str(q.id)` for an ObjectId: 24 hexadecimal digits. -/
def objectIdToString (n : Nat) : String := ⟨toHexAux 24 n []⟩

/-! ## Data model (src/app/models.py) -/

/-- Status enum of a raw question (`models.RawQuestionStatus`). -/
inductive RawQuestionStatus
  | pending
  | rejected
  | represented
  | answered
deriving DecidableEq

/-- A document of the `raw_questions` collection (`models.RawQuestionInDB`;
`created_at` is irrelevant to the verified claims and omitted). -/
structure RawQ where
  id : Nat
  content : String
  author_id : String
  status : RawQuestionStatus
deriving DecidableEq

/-- A document of the `representative_questions` collection
(`models.RepresentativeQuestionInDB`; `created_at` omitted).  Votes are
integers so that the non-negativity invariant is a real statement. -/
structure RepQ where
  id : Nat
  title : String
  total_votes : Int
  status : String
  raw_question_ids : List Nat
deriving DecidableEq

/-- A document of the `answers` collection (`models.AnswerInDB`;
`created_at` omitted). -/
structure AnswerDoc where
  id : Nat
  content : String
  author_id : String
  representative_question_id : Nat
  total_votes : Int
deriving DecidableEq

/-- A document of the `likes` collection (`models.LikeInDB`; the unused
`_id` and `liked_at` fields are omitted). -/
structure LikeDoc where
  session_id : String
  target_id : Nat
  target_type : String
  ip_address : Option String
deriving DecidableEq

/-- Request body for answer creation (`models.AnswerCreate`). -/
structure AnswerCreate where
  content : String
  author_id : String
  representative_question_id : Nat
  total_votes : Int
deriving DecidableEq

/-- The database state: the four collections the claims are about, plus a
fresh-id supply standing for ObjectId generation at insert time. -/
structure DB where
  reps : List RepQ
  raws : List RawQ
  answers : List AnswerDoc
  likes : List LikeDoc
  nextId : Nat
deriving DecidableEq

/-! ## Generic single-document update/delete, as Mongo's `update_one` and
`delete_one` behave on a collection in natural order. -/

/-- Applies `f` to the first element satisfying `p` (Mongo `update_one`). -/
def updateFirst (p : α → Bool) (f : α → α) : List α → List α
  | [] => []
  | x :: xs => if p x then f x :: xs else x :: updateFirst p f xs

/-- Removes the first element satisfying `p` (Mongo `delete_one`). -/
def removeFirst (p : α → Bool) : List α → List α
  | [] => []
  | x :: xs => if p x then xs else x :: removeFirst p xs

/-! ## Like / vote operations (src/app/crud.py) -/

/-- Number of Like documents referencing a target (the count the
`total_votes` counters are supposed to mirror). -/
def countL (likes : List LikeDoc) (tid : Nat) (ttype : String) : Nat :=
  (likes.filter fun l => l.target_id == tid && l.target_type == ttype).length

/-- Number of Like documents referencing a target in a database state. -/
def countLikes (db : DB) (tid : Nat) (ttype : String) : Nat :=
  countL db.likes tid ttype

/-- Predicate selecting the Like document of a (session, target, type)
tuple. -/
def likeMatches (sid : String) (tid : Nat) (ttype : String) (l : LikeDoc) : Bool :=
  l.session_id == sid && l.target_id == tid && l.target_type == ttype

/-- Embeds `crud.check_user_already_liked`.  The source tries the raw,
string and ObjectId representations of `target_id` in turn; with canonical
ids all three lookups coincide. -/
def check_user_already_liked (db : DB) (sid : String) (tid : Nat) (ttype : String) : Bool :=
  db.likes.any (likeMatches sid tid ttype)

/-- Embeds `crud.create_like` (insert of one Like document, with the
canonical ObjectId stored as `target_id`). -/
def create_like (db : DB) (sid : String) (tid : Nat) (ttype : String) (ip : Option String) : DB :=
  { db with likes := db.likes ++ [⟨sid, tid, ttype, ip⟩] }

/-- Embeds `crud.remove_like`.  The three delete attempts of the source
collapse to one canonical delete of the first matching document. -/
def remove_like (db : DB) (sid : String) (tid : Nat) (ttype : String) : DB :=
  { db with likes := removeFirst (likeMatches sid tid ttype) db.likes }

/-- Embeds `crud.get_representative_question_by_id` (`find_one` by id). -/
def get_representative_question_by_id (db : DB) (qid : Nat) : Option RepQ :=
  db.reps.find? fun q => q.id == qid

/-- Embeds `crud.get_answer_by_id`. -/
def get_answer_by_id (db : DB) (aid : Nat) : Option AnswerDoc :=
  db.answers.find? fun a => a.id == aid

/-- Embeds `crud.increment_representative_question_votes`: an unconditional
`$inc` by 1 of the first document with the given id; returns the refetched
document when one was modified, `None` otherwise. -/
def increment_representative_question_votes (db : DB) (qid : Nat) : DB × Option RepQ :=
  let db' := { db with
    reps := updateFirst (fun q => q.id == qid)
      (fun q => { q with total_votes := q.total_votes + 1 }) db.reps }
  if db.reps.any (fun q => q.id == qid) then
    (db', get_representative_question_by_id db' qid)
  else
    (db', none)

/-- Embeds `crud.decrement_representative_question_votes`: a `$inc` by -1
guarded by `total_votes > 0` in the update filter. -/
def decrement_representative_question_votes (db : DB) (qid : Nat) : DB × Option RepQ :=
  let p := fun (q : RepQ) => q.id == qid && decide (0 < q.total_votes)
  let db' := { db with
    reps := updateFirst p (fun q => { q with total_votes := q.total_votes - 1 }) db.reps }
  if db.reps.any p then
    (db', get_representative_question_by_id db' qid)
  else
    (db', none)

/-- Embeds `crud.increment_answer_votes`. -/
def increment_answer_votes (db : DB) (aid : Nat) : DB × Option AnswerDoc :=
  let db' := { db with
    answers := updateFirst (fun a => a.id == aid)
      (fun a => { a with total_votes := a.total_votes + 1 }) db.answers }
  if db.answers.any (fun a => a.id == aid) then
    (db', get_answer_by_id db' aid)
  else
    (db', none)

/-- Embeds `crud.decrement_answer_votes` (guarded by `total_votes > 0`). -/
def decrement_answer_votes (db : DB) (aid : Nat) : DB × Option AnswerDoc :=
  let p := fun (a : AnswerDoc) => a.id == aid && decide (0 < a.total_votes)
  let db' := { db with
    answers := updateFirst p (fun a => { a with total_votes := a.total_votes - 1 }) db.answers }
  if db.answers.any p then
    (db', get_answer_by_id db' aid)
  else
    (db', none)

/-- Embeds `crud.safe_increment_votes_with_like_check`. -/
def safe_increment_votes_with_like_check (db : DB) (sid : String) (qid : Nat)
    (ip : String) : DB × Option RepQ :=
  if check_user_already_liked db sid qid "question" then (db, none)
  else
    increment_representative_question_votes
      (create_like db sid qid "question" (some ip)) qid

/-- Embeds `crud.safe_decrement_votes_with_like_check`. -/
def safe_decrement_votes_with_like_check (db : DB) (sid : String) (qid : Nat) :
    DB × Option RepQ :=
  if !check_user_already_liked db sid qid "question" then (db, none)
  else
    decrement_representative_question_votes (remove_like db sid qid "question") qid

/-- Embeds `crud.safe_increment_answer_votes_with_like_check`. -/
def safe_increment_answer_votes_with_like_check (db : DB) (sid : String) (aid : Nat)
    (ip : String) : DB × Option AnswerDoc :=
  if check_user_already_liked db sid aid "answer" then (db, none)
  else
    increment_answer_votes (create_like db sid aid "answer" (some ip)) aid

/-- Embeds `crud.safe_decrement_answer_votes_with_like_check`. -/
def safe_decrement_answer_votes_with_like_check (db : DB) (sid : String) (aid : Nat) :
    DB × Option AnswerDoc :=
  if !check_user_already_liked db sid aid "answer" then (db, none)
  else
    decrement_answer_votes (remove_like db sid aid "answer") aid

/-- Outcome of a like/unlike endpoint call (`routers/likes.py`): HTTP 404,
HTTP 400 with the duplicate/absent-like message, or success with the new
vote count. -/
inductive LikeOutcome
  | accepted (total_votes : Int)
  | notFound
  | alreadyLiked
  | notLiked
deriving DecidableEq

/-- Embeds the `PUT /likes/questions/{id}/like` handler
(`like_representative_question`): existence check, then the safe
increment; `None` from the safe increment is reported as 400. -/
def like_question (db : DB) (sid : String) (qid : Nat) (ip : String) : DB × LikeOutcome :=
  match get_representative_question_by_id db qid with
  | none => (db, .notFound)
  | some _ =>
    match safe_increment_votes_with_like_check db sid qid ip with
    | (db', none) => (db', .alreadyLiked)
    | (db', some q) => (db', .accepted q.total_votes)

/-- Embeds the `PUT /likes/questions/{id}/unlike` handler
(`unlike_representative_question`). -/
def unlike_question (db : DB) (sid : String) (qid : Nat) : DB × LikeOutcome :=
  match get_representative_question_by_id db qid with
  | none => (db, .notFound)
  | some _ =>
    match safe_decrement_votes_with_like_check db sid qid with
    | (db', none) => (db', .notLiked)
    | (db', some q) => (db', .accepted q.total_votes)

/-- Embeds the `PUT /likes/answers/{id}/like` handler (`like_answer`). -/
def like_answer (db : DB) (sid : String) (aid : Nat) (ip : String) : DB × LikeOutcome :=
  match get_answer_by_id db aid with
  | none => (db, .notFound)
  | some _ =>
    match safe_increment_answer_votes_with_like_check db sid aid ip with
    | (db', none) => (db', .alreadyLiked)
    | (db', some a) => (db', .accepted a.total_votes)

/-- Embeds the `PUT /likes/answers/{id}/unlike` handler (`unlike_answer`). -/
def unlike_answer (db : DB) (sid : String) (aid : Nat) : DB × LikeOutcome :=
  match get_answer_by_id db aid with
  | none => (db, .notFound)
  | some _ =>
    match safe_decrement_answer_votes_with_like_check db sid aid with
    | (db', none) => (db', .notLiked)
    | (db', some a) => (db', .accepted a.total_votes)

/-- One step of the voting subsystem: any like/unlike endpoint call. -/
inductive VoteStep : DB → DB → Prop
  | like_q (db : DB) (sid : String) (qid : Nat) (ip : String) :
      VoteStep db (like_question db sid qid ip).1
  | unlike_q (db : DB) (sid : String) (qid : Nat) :
      VoteStep db (unlike_question db sid qid).1
  | like_a (db : DB) (sid : String) (aid : Nat) (ip : String) :
      VoteStep db (like_answer db sid aid ip).1
  | unlike_a (db : DB) (sid : String) (aid : Nat) :
      VoteStep db (unlike_answer db sid aid).1

/-- Two Like documents collide when they agree on the
(session, target, type) key. -/
def likeKeyEq (l1 l2 : LikeDoc) : Prop :=
  l1.session_id = l2.session_id ∧ l1.target_id = l2.target_id ∧
    l1.target_type = l2.target_type

instance : DecidablePred fun p : LikeDoc × LikeDoc => likeKeyEq p.1 p.2 :=
  fun _ => by unfold likeKeyEq; infer_instance

/-- The voting-subsystem invariant: ids of questions and answers are
distinct, at most one Like document exists per (session, target, type)
tuple, and every stored `total_votes` counter equals the number of Like
documents referencing the document. -/
def VoteInv (db : DB) : Prop :=
  (db.reps.map RepQ.id).Nodup ∧
  (db.answers.map AnswerDoc.id).Nodup ∧
  db.likes.Pairwise (fun l1 l2 => ¬likeKeyEq l1 l2) ∧
  (∀ q ∈ db.reps, q.total_votes = (countLikes db q.id "question" : Int)) ∧
  (∀ a ∈ db.answers, a.total_votes = (countLikes db a.id "answer" : Int))

instance (db : DB) : Decidable (VoteInv db) := by
  unfold VoteInv likeKeyEq; infer_instance

/-! ## Generic lemmas about single-document updates and deletes -/

theorem updateFirst_of_forall_neg (p : α → Bool) (f : α → α) :
    ∀ l : List α, (∀ x ∈ l, p x = false) → updateFirst p f l = l := by
  intro l h
  induction l with
  | nil => rfl
  | cons x xs ih =>
    have hx := h x (by simp)
    simp [updateFirst, hx]
    exact ih fun y hy => h y (by simp [hy])

theorem map_updateFirst (key : α → β) (p : α → Bool) (f : α → α)
    (hkf : ∀ x, key (f x) = key x) :
    ∀ l : List α, (updateFirst p f l).map key = l.map key := by
  intro l
  induction l with
  | nil => rfl
  | cons x xs ih =>
    by_cases hx : p x
    · simp [updateFirst, hx, hkf]
    · simp [updateFirst, hx, ih]

theorem nodup_updateFirst (key : α → β) (p : α → Bool) (f : α → α)
    (hkf : ∀ x, key (f x) = key x) (l : List α) (h : (l.map key).Nodup) :
    ((updateFirst p f l).map key).Nodup := by
  rw [map_updateFirst key p f hkf]
  exact h

theorem any_updateFirst_of (p1 p2 : α → Bool) (f : α → α) :
    ∀ l : List α, (∀ x ∈ l, p1 x = true → p2 (f x) = true) →
      (∃ x ∈ l, p1 x = true) → (updateFirst p1 f l).any p2 = true := by
  intro l hc hex
  induction l with
  | nil => exact absurd hex (by simp)
  | cons x xs ih =>
    by_cases hx : p1 x
    · simp [updateFirst, hx]
      exact Or.inl (hc x (by simp) hx)
    · simp [updateFirst, hx]
      rcases hex with ⟨z, hz, hpz⟩
      have hzx : z ∈ xs := by
        rcases List.mem_cons.mp hz with h | h
        · exact absurd (h ▸ hpz) (by simp [hx])
        · exact h
      exact Or.inr (List.any_eq_true.mp (ih (fun y hy => hc y (by simp [hy])) ⟨z, hzx, hpz⟩))

theorem updateFirst_cancel (p1 p2 : α → Bool) (f g : α → α) :
    ∀ l : List α, (∀ x, p2 x = true → p1 x = true) →
      (∀ x ∈ l, p1 x = true → p2 (f x) = true ∧ g (f x) = x) →
      updateFirst p2 g (updateFirst p1 f l) = l := by
  intro l h21 hc
  induction l with
  | nil => rfl
  | cons x xs ih =>
    by_cases hx : p1 x
    · have h := hc x (by simp) hx
      simp [updateFirst, hx, h.1, h.2]
    · have hx2 : ¬ p2 x = true := fun h => hx (h21 x h)
      simp [updateFirst, hx, hx2]
      exact ih fun y hy => hc y (by simp [hy])

theorem votes_updateFirst {α : Type} (key : α → Nat) (vot : α → Int)
    (p : α → Bool) (f : α → α) (k : Nat) (C C' : Nat → Int) :
    ∀ l : List α, (l.map key).Nodup →
      (∀ x, p x = true → key x = k) →
      (∀ x, key (f x) = key x) →
      (∀ x ∈ l, vot x = C (key x)) →
      (∀ j, j ≠ k → C' j = C j) →
      (∀ x ∈ l, p x = true → vot (f x) = C' k) →
      (∃ x ∈ l, p x = true) →
      ∀ y ∈ updateFirst p f l, vot y = C' (key y) := by
  intro l hnd hpk hkf hC hC' hfv hex
  induction l with
  | nil => intro y hy; simp [updateFirst] at hy
  | cons x xs ih =>
    by_cases hx : p x
    · intro y hy
      simp only [updateFirst, hx, if_pos] at hy
      rcases List.mem_cons.mp hy with rfl | hmem
      · rw [hkf, hpk x hx]
        exact hfv x (by simp) hx
      · have hky : key y ≠ k := by
          intro hk
          have : key x ∈ xs.map key := by
            rw [hpk x hx, ← hk]; exact List.mem_map_of_mem key hmem
          exact (List.nodup_cons.mp (by simpa using hnd)).1 this
        rw [hC' _ hky]
        exact hC y (by simp [hmem])
    · intro y hy
      simp only [updateFirst, hx, if_neg, Bool.not_eq_true] at hy
      rcases hex with ⟨z, hz, hpz⟩
      have hzx : z ∈ xs := by
        rcases List.mem_cons.mp hz with h | h
        · exact absurd (h ▸ hpz) (by simp [hx])
        · exact h
      rcases List.mem_cons.mp hy with rfl | hmem
      · have hky : key y ≠ k := by
          intro hk
          have : key z ∈ xs.map key := List.mem_map_of_mem key hzx
          rw [hpk z hpz] at this
          exact (List.nodup_cons.mp (by simpa using hnd)).1 (hk ▸ this)
        rw [hC' _ hky]
        exact hC y (by simp)
      · exact ih (List.Nodup.of_cons (by simpa using hnd))
          (fun a ha => hC a (by simp [ha]))
          (fun a ha hpa => hfv a (by simp [ha]) hpa) ⟨z, hzx, hpz⟩ y hmem

theorem removeFirst_sublist (p : α → Bool) :
    ∀ l : List α, List.Sublist (removeFirst p l) l := by
  intro l
  induction l with
  | nil => simp [removeFirst]
  | cons x xs ih =>
    by_cases hx : p x
    · simp only [removeFirst, hx, if_pos]
      exact List.sublist_cons_self x xs
    · simpa [removeFirst, hx] using List.Sublist.cons₂ x ih

theorem removeFirst_append_of_forall_neg (p : α → Bool) (x : α) :
    ∀ l : List α, (∀ y ∈ l, p y = false) → p x = true →
      removeFirst p (l ++ [x]) = l := by
  intro l h hx
  induction l with
  | nil => simp [removeFirst, hx]
  | cons z zs ih =>
    have hz := h z (by simp)
    simp [removeFirst, hz]
    exact ih fun y hy => h y (by simp [hy])

theorem length_filter_removeFirst_imp (p q : α → Bool) (himp : ∀ x, p x = true → q x = true) :
    ∀ l : List α, l.any p = true →
      (List.filter q (removeFirst p l)).length + 1 = (List.filter q l).length := by
  intro l hany
  induction l with
  | nil => simp at hany
  | cons c cs ih =>
    by_cases hc : p c
    · simp [removeFirst, hc, List.filter_cons, himp c hc]
    · have hany' : cs.any p = true := by
        rcases List.any_eq_true.mp hany with ⟨z, hz, hpz⟩
        rcases List.mem_cons.mp hz with rfl | hzs
        · exact absurd hpz (by simp [hc])
        · exact List.any_eq_true.mpr ⟨z, hzs, hpz⟩
      have h := ih hany'
      by_cases hqc : q c
      · simp [removeFirst, hc, List.filter_cons, hqc]
        omega
      · simp [removeFirst, hc, List.filter_cons, hqc]
        omega

theorem filter_removeFirst_disjoint (p q : α → Bool) (hdis : ∀ x, p x = true → q x = false) :
    ∀ l : List α, List.filter q (removeFirst p l) = List.filter q l := by
  intro l
  induction l with
  | nil => rfl
  | cons c cs ih =>
    by_cases hc : p c
    · simp [removeFirst, hc, List.filter_cons, hdis c hc]
    · by_cases hqc : q c <;> simp [removeFirst, hc, List.filter_cons, hqc, ih]

theorem countL_append (ls : List LikeDoc) (l0 : LikeDoc) (tid : Nat) (t : String) :
    countL (ls ++ [l0]) tid t =
      countL ls tid t + (if l0.target_id = tid ∧ l0.target_type = t then 1 else 0) := by
  by_cases h1 : l0.target_id = tid
  · by_cases h2 : l0.target_type = t
    · simp [countL, List.filter_append, List.filter_cons, h1, h2]
    · simp [countL, List.filter_append, List.filter_cons, h1, h2]
  · simp [countL, List.filter_append, List.filter_cons, h1]

theorem countL_pos_of_mem (ls : List LikeDoc) (l0 : LikeDoc) (tid : Nat) (t : String)
    (h : l0 ∈ ls) (h1 : l0.target_id = tid) (h2 : l0.target_type = t) :
    1 ≤ countL ls tid t := by
  have hmem : l0 ∈ ls.filter fun l => l.target_id == tid && l.target_type == t :=
    List.mem_filter.mpr ⟨h, by simp [h1, h2]⟩
  exact List.length_pos_of_mem hmem

/-! ## State equations for the endpoint handlers -/

theorem increment_rep_fst (db : DB) (qid : Nat) :
    (increment_representative_question_votes db qid).1 =
      { db with reps := (updateFirst (fun q => q.id == qid)
          (fun q => { q with total_votes := q.total_votes + 1 }) db.reps) } := by
  simp only [increment_representative_question_votes]
  split <;> rfl

theorem decrement_rep_fst (db : DB) (qid : Nat) :
    (decrement_representative_question_votes db qid).1 =
      { db with reps := (updateFirst (fun q => q.id == qid && decide (0 < q.total_votes))
          (fun q => { q with total_votes := q.total_votes - 1 }) db.reps) } := by
  simp only [decrement_representative_question_votes]
  split <;> rfl

theorem increment_ans_fst (db : DB) (aid : Nat) :
    (increment_answer_votes db aid).1 =
      { db with answers := (updateFirst (fun a => a.id == aid)
          (fun a => { a with total_votes := a.total_votes + 1 }) db.answers) } := by
  simp only [increment_answer_votes]
  split <;> rfl

theorem decrement_ans_fst (db : DB) (aid : Nat) :
    (decrement_answer_votes db aid).1 =
      { db with answers := (updateFirst (fun a => a.id == aid && decide (0 < a.total_votes))
          (fun a => { a with total_votes := a.total_votes - 1 }) db.answers) } := by
  simp only [decrement_answer_votes]
  split <;> rfl

theorem like_question_fst (db : DB) (sid : String) (qid : Nat) (ip : String) :
    (like_question db sid qid ip).1 =
      if (get_representative_question_by_id db qid).isSome then
        (safe_increment_votes_with_like_check db sid qid ip).1
      else db := by
  unfold like_question
  cases get_representative_question_by_id db qid with
  | none => simp
  | some q0 =>
    simp only [Option.isSome_some, if_pos]
    rcases hs : safe_increment_votes_with_like_check db sid qid ip with ⟨db', o⟩
    cases o <;> simp [hs]

theorem unlike_question_fst (db : DB) (sid : String) (qid : Nat) :
    (unlike_question db sid qid).1 =
      if (get_representative_question_by_id db qid).isSome then
        (safe_decrement_votes_with_like_check db sid qid).1
      else db := by
  unfold unlike_question
  cases get_representative_question_by_id db qid with
  | none => simp
  | some q0 =>
    simp only [Option.isSome_some, if_pos]
    rcases hs : safe_decrement_votes_with_like_check db sid qid with ⟨db', o⟩
    cases o <;> simp [hs]

theorem like_answer_fst (db : DB) (sid : String) (aid : Nat) (ip : String) :
    (like_answer db sid aid ip).1 =
      if (get_answer_by_id db aid).isSome then
        (safe_increment_answer_votes_with_like_check db sid aid ip).1
      else db := by
  unfold like_answer
  cases get_answer_by_id db aid with
  | none => simp
  | some a0 =>
    simp only [Option.isSome_some, if_pos]
    rcases hs : safe_increment_answer_votes_with_like_check db sid aid ip with ⟨db', o⟩
    cases o <;> simp [hs]

theorem unlike_answer_fst (db : DB) (sid : String) (aid : Nat) :
    (unlike_answer db sid aid).1 =
      if (get_answer_by_id db aid).isSome then
        (safe_decrement_answer_votes_with_like_check db sid aid).1
      else db := by
  unfold unlike_answer
  cases get_answer_by_id db aid with
  | none => simp
  | some a0 =>
    simp only [Option.isSome_some, if_pos]
    rcases hs : safe_decrement_answer_votes_with_like_check db sid aid with ⟨db', o⟩
    cases o <;> simp [hs]

/-! ## Preservation of the voting invariant (claim C1) -/

theorem countL_votes_after_like {α β : Type} (key : α → Nat) (vot : α → Int)
    (keyo : β → Nat) (voto : β → Int) (f : α → α) (tt ot : String)
    (hto : ot ≠ tt)
    (hkf : ∀ x, key (f x) = key x) (hvf : ∀ x, vot (f x) = vot x + 1)
    (ls : List LikeDoc) (T : List α) (O : List β) (sid : String) (k : Nat) (ip : Option String)
    (hnd : (T.map key).Nodup)
    (hT : ∀ x ∈ T, vot x = (countL ls (key x) tt : Int))
    (hO : ∀ y ∈ O, voto y = (countL ls (keyo y) ot : Int))
    (hex : ∃ x ∈ T, (key x == k) = true) :
    (∀ y ∈ updateFirst (fun x => key x == k) f T,
        vot y = (countL (ls ++ [⟨sid, k, tt, ip⟩]) (key y) tt : Int)) ∧
    (∀ y ∈ O, voto y = (countL (ls ++ [⟨sid, k, tt, ip⟩]) (keyo y) ot : Int)) := by
  constructor
  · have hC' : ∀ j, j ≠ k →
        ((countL (ls ++ [⟨sid, k, tt, ip⟩]) j tt : Nat) : Int) = ((countL ls j tt : Nat) : Int) := by
      intro j hj
      have happ := countL_append ls ⟨sid, k, tt, ip⟩ j tt
      rw [if_neg (fun hcon => hj (And.left hcon).symm)] at happ
      simp [happ]
    have hfv : ∀ x ∈ T, (key x == k) = true →
        vot (f x) = ((countL (ls ++ [⟨sid, k, tt, ip⟩]) k tt : Nat) : Int) := by
      intro x hx hpx
      have hid : key x = k := by simpa using hpx
      have hv := hT x hx
      have happ := countL_append ls ⟨sid, k, tt, ip⟩ k tt
      rw [if_pos ⟨rfl, rfl⟩] at happ
      rw [hvf x, hv, hid, happ]
      push_cast
      ring
    exact votes_updateFirst key vot (fun x => key x == k) f k
      (fun j => ((countL ls j tt : Nat) : Int))
      (fun j => ((countL (ls ++ [⟨sid, k, tt, ip⟩]) j tt : Nat) : Int))
      T hnd (fun x hx => by simpa using hx) hkf hT hC' hfv hex
  · intro y hy
    have happ := countL_append ls ⟨sid, k, tt, ip⟩ (keyo y) ot
    rw [if_neg (fun hcon => hto (And.right hcon).symm)] at happ
    rw [happ]
    simpa using hO y hy

theorem countL_votes_after_unlike {α β : Type} (key : α → Nat) (vot : α → Int)
    (keyo : β → Nat) (voto : β → Int) (g : α → α) (tt ot : String)
    (hto : ot ≠ tt)
    (hkg : ∀ x, key (g x) = key x) (hvg : ∀ x, vot (g x) = vot x - 1)
    (ls : List LikeDoc) (T : List α) (O : List β) (sid : String) (k : Nat)
    (hnd : (T.map key).Nodup)
    (hT : ∀ x ∈ T, vot x = (countL ls (key x) tt : Int))
    (hO : ∀ y ∈ O, voto y = (countL ls (keyo y) ot : Int))
    (hex : ∃ x ∈ T, (key x == k) = true)
    (hliked : ls.any (likeMatches sid k tt) = true) :
    (∀ y ∈ updateFirst (fun x => key x == k && decide (0 < vot x)) g T,
        vot y = (countL (removeFirst (likeMatches sid k tt) ls) (key y) tt : Int)) ∧
    (∀ y ∈ O, voto y = (countL (removeFirst (likeMatches sid k tt) ls) (keyo y) ot : Int)) ∧
    (∃ x ∈ T, (key x == k && decide (0 < vot x)) = true) := by
  have hpos : 1 ≤ countL ls k tt := by
    rcases List.any_eq_true.mp hliked with ⟨l0, hl0, hm⟩
    obtain ⟨⟨hm1, hm2⟩, hm3⟩ : (l0.session_id = sid ∧ l0.target_id = k) ∧ l0.target_type = tt := by
      simpa [likeMatches] using hm
    exact countL_pos_of_mem ls l0 k tt hl0 hm2 hm3
  have hc1 : countL (removeFirst (likeMatches sid k tt) ls) k tt + 1 = countL ls k tt := by
    apply length_filter_removeFirst_imp
    · intro x hx
      obtain ⟨⟨hx1, hx2⟩, hx3⟩ : (x.session_id = sid ∧ x.target_id = k) ∧ x.target_type = tt := by
        simpa [likeMatches] using hx
      simp [hx2, hx3]
    · exact hliked
  have hex2 : ∃ x ∈ T, (key x == k && decide (0 < vot x)) = true := by
    rcases hex with ⟨x0, hx0, hkx0⟩
    refine ⟨x0, hx0, ?_⟩
    have hid : key x0 = k := by simpa using hkx0
    have hv := hT x0 hx0
    rw [hid] at hv
    have hvpos : 0 < vot x0 := by rw [hv]; exact_mod_cast hpos
    simp [hkx0, hvpos]
  refine ⟨?_, ?_, hex2⟩
  · have hC' : ∀ j, j ≠ k →
        ((countL (removeFirst (likeMatches sid k tt) ls) j tt : Nat) : Int) =
          ((countL ls j tt : Nat) : Int) := by
      intro j hj
      have hdis := filter_removeFirst_disjoint (likeMatches sid k tt)
        (fun l => l.target_id == j && l.target_type == tt) ?hd ls
      · simp only [countL, hdis]
      · intro x hx
        obtain ⟨⟨hx1, hx2⟩, hx3⟩ : (x.session_id = sid ∧ x.target_id = k) ∧ x.target_type = tt := by
          simpa [likeMatches] using hx
        simp [hx2, Ne.symm hj]
    have hfv : ∀ x ∈ T, (key x == k && decide (0 < vot x)) = true →
        vot (g x) = ((countL (removeFirst (likeMatches sid k tt) ls) k tt : Nat) : Int) := by
      intro x hx hpx
      have hid : key x = k := by
        simp only [Bool.and_eq_true, beq_iff_eq] at hpx
        exact hpx.1
      have hv := hT x hx
      rw [hid] at hv
      rw [hvg x, hv]
      omega
    exact votes_updateFirst key vot (fun x => key x == k && decide (0 < vot x)) g k
      (fun j => ((countL ls j tt : Nat) : Int))
      (fun j => ((countL (removeFirst (likeMatches sid k tt) ls) j tt : Nat) : Int))
      T hnd
      (fun x hx => by
        simp only [Bool.and_eq_true, beq_iff_eq] at hx
        exact hx.1)
      hkg hT hC' hfv hex2
  · intro y hy
    have hdis := filter_removeFirst_disjoint (likeMatches sid k tt)
      (fun l => l.target_id == keyo y && l.target_type == ot) ?hd2 ls
    · rw [show countL (removeFirst (likeMatches sid k tt) ls) (keyo y) ot =
          countL ls (keyo y) ot by simp only [countL, hdis]]
      exact hO y hy
    · intro x hx
      obtain ⟨⟨hx1, hx2⟩, hx3⟩ : (x.session_id = sid ∧ x.target_id = k) ∧ x.target_type = tt := by
        simpa [likeMatches] using hx
      simp [hx3, Ne.symm hto]

theorem voteInv_safe_increment (db : DB) (sid : String) (qid : Nat) (ip : String)
    (h : VoteInv db) (hex : ∃ q ∈ db.reps, (q.id == qid) = true) :
    VoteInv (safe_increment_votes_with_like_check db sid qid ip).1 := by
  obtain ⟨hrep, hans, hpw, hq, ha⟩ := h
  by_cases hchk : check_user_already_liked db sid qid "question"
  · simp only [safe_increment_votes_with_like_check, hchk, if_pos]
    exact ⟨hrep, hans, hpw, hq, ha⟩
  · have hchk' : check_user_already_liked db sid qid "question" = false :=
      Bool.eq_false_iff.mpr hchk
    have hstate : (safe_increment_votes_with_like_check db sid qid ip).1 =
        { db with
          likes := db.likes ++ [⟨sid, qid, "question", some ip⟩],
          reps := (updateFirst (fun q => q.id == qid)
            (fun q => { q with total_votes := q.total_votes + 1 }) db.reps) } := by
      simp [safe_increment_votes_with_like_check, hchk, increment_rep_fst, create_like]
    rw [hstate]
    have hmain := countL_votes_after_like RepQ.id RepQ.total_votes AnswerDoc.id
      AnswerDoc.total_votes (fun q => { q with total_votes := q.total_votes + 1 })
      "question" "answer" (by decide) (fun x => rfl) (fun x => rfl)
      db.likes db.reps db.answers sid qid (some ip) hrep hq ha hex
    refine ⟨?_, hans, ?_, ?_, ?_⟩
    · apply nodup_updateFirst
      · intro x
        rfl
      · exact hrep
    · refine List.pairwise_append.mpr ⟨hpw, by simp, ?_⟩
      intro a hma b hmb
      simp only [List.mem_singleton] at hmb
      subst hmb
      intro hkeq
      obtain ⟨h1, h2, h3⟩ := hkeq
      have hfalse := List.any_eq_false.mp
        (by simpa [check_user_already_liked] using hchk') a hma
      simp [likeMatches, h1, h2, h3] at hfalse
    · intro q hqmem
      simpa [countLikes] using hmain.1 q hqmem
    · intro a hamem
      simpa [countLikes] using hmain.2 a hamem

theorem voteInv_safe_decrement (db : DB) (sid : String) (qid : Nat)
    (h : VoteInv db) (hex : ∃ q ∈ db.reps, (q.id == qid) = true) :
    VoteInv (safe_decrement_votes_with_like_check db sid qid).1 := by
  obtain ⟨hrep, hans, hpw, hq, ha⟩ := h
  by_cases hchk : check_user_already_liked db sid qid "question"
  · have hstate : (safe_decrement_votes_with_like_check db sid qid).1 =
        { db with
          likes := removeFirst (likeMatches sid qid "question") db.likes,
          reps := (updateFirst (fun q => q.id == qid && decide (0 < q.total_votes))
            (fun q => { q with total_votes := q.total_votes - 1 }) db.reps) } := by
      simp [safe_decrement_votes_with_like_check, hchk, decrement_rep_fst, remove_like]
    rw [hstate]
    have hmain := countL_votes_after_unlike RepQ.id RepQ.total_votes AnswerDoc.id
      AnswerDoc.total_votes (fun q => { q with total_votes := q.total_votes - 1 })
      "question" "answer" (by decide) (fun x => rfl) (fun x => rfl)
      db.likes db.reps db.answers sid qid hrep hq ha hex
      (by simpa [check_user_already_liked] using hchk)
    refine ⟨?_, hans, ?_, ?_, ?_⟩
    · apply nodup_updateFirst
      · intro x
        rfl
      · exact hrep
    · exact List.Pairwise.sublist (removeFirst_sublist _ _) hpw
    · intro q hqmem
      simpa [countLikes] using hmain.1 q hqmem
    · intro a hamem
      simpa [countLikes] using hmain.2.1 a hamem
  · have hchk' : check_user_already_liked db sid qid "question" = false :=
      Bool.eq_false_iff.mpr hchk
    simp only [safe_decrement_votes_with_like_check, hchk', Bool.not_false, if_pos]
    exact ⟨hrep, hans, hpw, hq, ha⟩

theorem voteInv_safe_increment_answer (db : DB) (sid : String) (aid : Nat) (ip : String)
    (h : VoteInv db) (hex : ∃ a ∈ db.answers, (a.id == aid) = true) :
    VoteInv (safe_increment_answer_votes_with_like_check db sid aid ip).1 := by
  obtain ⟨hrep, hans, hpw, hq, ha⟩ := h
  by_cases hchk : check_user_already_liked db sid aid "answer"
  · simp only [safe_increment_answer_votes_with_like_check, hchk, if_pos]
    exact ⟨hrep, hans, hpw, hq, ha⟩
  · have hchk' : check_user_already_liked db sid aid "answer" = false :=
      Bool.eq_false_iff.mpr hchk
    have hstate : (safe_increment_answer_votes_with_like_check db sid aid ip).1 =
        { db with
          likes := db.likes ++ [⟨sid, aid, "answer", some ip⟩],
          answers := (updateFirst (fun a => a.id == aid)
            (fun a => { a with total_votes := a.total_votes + 1 }) db.answers) } := by
      simp [safe_increment_answer_votes_with_like_check, hchk, increment_ans_fst, create_like]
    rw [hstate]
    have hmain := countL_votes_after_like AnswerDoc.id AnswerDoc.total_votes RepQ.id
      RepQ.total_votes (fun a => { a with total_votes := a.total_votes + 1 })
      "answer" "question" (by decide) (fun x => rfl) (fun x => rfl)
      db.likes db.answers db.reps sid aid (some ip) hans ha hq hex
    refine ⟨hrep, ?_, ?_, ?_, ?_⟩
    · apply nodup_updateFirst
      · intro x
        rfl
      · exact hans
    · refine List.pairwise_append.mpr ⟨hpw, by simp, ?_⟩
      intro a hma b hmb
      simp only [List.mem_singleton] at hmb
      subst hmb
      intro hkeq
      obtain ⟨h1, h2, h3⟩ := hkeq
      have hfalse := List.any_eq_false.mp
        (by simpa [check_user_already_liked] using hchk') a hma
      simp [likeMatches, h1, h2, h3] at hfalse
    · intro q hqmem
      simpa [countLikes] using hmain.2 q hqmem
    · intro a hamem
      simpa [countLikes] using hmain.1 a hamem

theorem voteInv_safe_decrement_answer (db : DB) (sid : String) (aid : Nat)
    (h : VoteInv db) (hex : ∃ a ∈ db.answers, (a.id == aid) = true) :
    VoteInv (safe_decrement_answer_votes_with_like_check db sid aid).1 := by
  obtain ⟨hrep, hans, hpw, hq, ha⟩ := h
  by_cases hchk : check_user_already_liked db sid aid "answer"
  · have hstate : (safe_decrement_answer_votes_with_like_check db sid aid).1 =
        { db with
          likes := removeFirst (likeMatches sid aid "answer") db.likes,
          answers := (updateFirst (fun a => a.id == aid && decide (0 < a.total_votes))
            (fun a => { a with total_votes := a.total_votes - 1 }) db.answers) } := by
      simp [safe_decrement_answer_votes_with_like_check, hchk, decrement_ans_fst, remove_like]
    rw [hstate]
    have hmain := countL_votes_after_unlike AnswerDoc.id AnswerDoc.total_votes RepQ.id
      RepQ.total_votes (fun a => { a with total_votes := a.total_votes - 1 })
      "answer" "question" (by decide) (fun x => rfl) (fun x => rfl)
      db.likes db.answers db.reps sid aid hans ha hq hex
      (by simpa [check_user_already_liked] using hchk)
    refine ⟨hrep, ?_, ?_, ?_, ?_⟩
    · apply nodup_updateFirst
      · intro x
        rfl
      · exact hans
    · exact List.Pairwise.sublist (removeFirst_sublist _ _) hpw
    · intro q hqmem
      simpa [countLikes] using hmain.2.1 q hqmem
    · intro a hamem
      simpa [countLikes] using hmain.1 a hamem
  · have hchk' : check_user_already_liked db sid aid "answer" = false :=
      Bool.eq_false_iff.mpr hchk
    simp only [safe_decrement_answer_votes_with_like_check, hchk', Bool.not_false, if_pos]
    exact ⟨hrep, hans, hpw, hq, ha⟩

theorem voteInv_like_question (db : DB) (sid : String) (qid : Nat) (ip : String)
    (h : VoteInv db) : VoteInv (like_question db sid qid ip).1 := by
  rw [like_question_fst]
  cases hget : get_representative_question_by_id db qid with
  | none => simpa using h
  | some q0 =>
    simp only [Option.isSome_some, if_pos]
    have hget' : db.reps.find? (fun q => q.id == qid) = some q0 := hget
    have hp := List.find?_some hget'
    exact voteInv_safe_increment db sid qid ip h
      ⟨q0, List.mem_of_find?_eq_some hget', hp⟩

theorem voteInv_unlike_question (db : DB) (sid : String) (qid : Nat)
    (h : VoteInv db) : VoteInv (unlike_question db sid qid).1 := by
  rw [unlike_question_fst]
  cases hget : get_representative_question_by_id db qid with
  | none => simpa using h
  | some q0 =>
    simp only [Option.isSome_some, if_pos]
    have hget' : db.reps.find? (fun q => q.id == qid) = some q0 := hget
    have hp := List.find?_some hget'
    exact voteInv_safe_decrement db sid qid h
      ⟨q0, List.mem_of_find?_eq_some hget', hp⟩

theorem voteInv_like_answer (db : DB) (sid : String) (aid : Nat) (ip : String)
    (h : VoteInv db) : VoteInv (like_answer db sid aid ip).1 := by
  rw [like_answer_fst]
  cases hget : get_answer_by_id db aid with
  | none => simpa using h
  | some a0 =>
    simp only [Option.isSome_some, if_pos]
    have hget' : db.answers.find? (fun a => a.id == aid) = some a0 := hget
    have hp := List.find?_some hget'
    exact voteInv_safe_increment_answer db sid aid ip h
      ⟨a0, List.mem_of_find?_eq_some hget', hp⟩

theorem voteInv_unlike_answer (db : DB) (sid : String) (aid : Nat)
    (h : VoteInv db) : VoteInv (unlike_answer db sid aid).1 := by
  rw [unlike_answer_fst]
  cases hget : get_answer_by_id db aid with
  | none => simpa using h
  | some a0 =>
    simp only [Option.isSome_some, if_pos]
    have hget' : db.answers.find? (fun a => a.id == aid) = some a0 := hget
    have hp := List.find?_some hget'
    exact voteInv_safe_decrement_answer db sid aid h
      ⟨a0, List.mem_of_find?_eq_some hget', hp⟩

/-- Claim C1: in every state satisfying the voting invariant, each
representative question's and each answer's `total_votes` counter is
non-negative and equals the number of Like documents referencing it, and
every like/unlike endpoint call (the decrement being the conditional
update guarded by `total_votes > 0`) preserves the invariant — hence no
sequence of like/unlike operations drives a counter below zero. -/
theorem c1_total_votes_matches_like_count (db db' : DB) (hInv : VoteInv db)
    (hstep : VoteStep db db') :
    (∀ q ∈ db.reps, 0 ≤ q.total_votes ∧
        q.total_votes = (countLikes db q.id "question" : Int)) ∧
    (∀ a ∈ db.answers, 0 ≤ a.total_votes ∧
        a.total_votes = (countLikes db a.id "answer" : Int)) ∧
    VoteInv db' := by
  have hq := hInv.2.2.2.1
  have ha := hInv.2.2.2.2
  refine ⟨fun q hmem => ⟨by rw [hq q hmem]; exact Int.natCast_nonneg _, hq q hmem⟩,
    fun a hmem => ⟨by rw [ha a hmem]; exact Int.natCast_nonneg _, ha a hmem⟩, ?_⟩
  cases hstep with
  | like_q sid qid ip => exact voteInv_like_question _ sid qid ip hInv
  | unlike_q sid qid => exact voteInv_unlike_question _ sid qid hInv
  | like_a sid aid ip => exact voteInv_like_answer _ sid aid ip hInv
  | unlike_a sid aid => exact voteInv_unlike_answer _ sid aid hInv

/-- A small concrete state used by the C1 witness: one representative
question with one like, one answer with no likes. -/
def c1db : DB :=
  { reps := [{ id := 1, title := "t", total_votes := 1, status := "unanswered",
               raw_question_ids := [] }],
    raws := [],
    answers := [{ id := 2, content := "a", author_id := "adm",
                  representative_question_id := 1, total_votes := 0 }],
    likes := [{ session_id := "s", target_id := 1, target_type := "question",
                ip_address := none }],
    nextId := 3 }

theorem c1_total_votes_matches_like_count_witness :
    (∀ q ∈ c1db.reps, 0 ≤ q.total_votes ∧
        q.total_votes = (countLikes c1db q.id "question" : Int)) ∧
    (∀ a ∈ c1db.answers, 0 ≤ a.total_votes ∧
        a.total_votes = (countLikes c1db a.id "answer" : Int)) ∧
    VoteInv (like_question c1db "s2" 1 "ip").1 :=
  c1_total_votes_matches_like_count c1db (like_question c1db "s2" 1 "ip").1
    (by decide) (VoteStep.like_q c1db "s2" 1 "ip")

/-! ## Claim C2: like-then-unlike round trip -/

theorem safe_increment_of_not_liked (db : DB) (sid : String) (qid : Nat) (ip : String)
    (h : check_user_already_liked db sid qid "question" = false) :
    safe_increment_votes_with_like_check db sid qid ip =
      increment_representative_question_votes
        (create_like db sid qid "question" (some ip)) qid := by
  simp [safe_increment_votes_with_like_check, h]

theorem safe_decrement_of_liked (db : DB) (sid : String) (qid : Nat)
    (h : check_user_already_liked db sid qid "question" = true) :
    safe_decrement_votes_with_like_check db sid qid =
      decrement_representative_question_votes (remove_like db sid qid "question") qid := by
  simp [safe_decrement_votes_with_like_check, h]

/-- The intermediate state after a successful like of question `qid`. -/
def like_state (db : DB) (sid : String) (qid : Nat) (ip : String) : DB :=
  { db with
    likes := db.likes ++ [⟨sid, qid, "question", some ip⟩],
    reps := (updateFirst (fun q => q.id == qid)
      (fun q => { q with total_votes := q.total_votes + 1 }) db.reps) }

theorem like_state_eq (db : DB) (sid : String) (qid : Nat) (ip : String)
    (hex : (get_representative_question_by_id db qid).isSome = true)
    (hnot : check_user_already_liked db sid qid "question" = false) :
    (like_question db sid qid ip).1 = like_state db sid qid ip := by
  rw [like_question_fst, if_pos hex, safe_increment_of_not_liked db sid qid ip hnot,
    increment_rep_fst]
  rfl

theorem unlike_of_like_state (db : DB) (sid : String) (qid : Nat) (ip : String)
    (hInv : VoteInv db)
    (hex : (get_representative_question_by_id db qid).isSome = true)
    (hnot : check_user_already_liked db sid qid "question" = false) :
    (unlike_question (like_state db sid qid ip) sid qid).1 = db := by
  obtain ⟨hrep, hans, hpw, hq, ha⟩ := hInv
  have hex0 : ∃ x ∈ db.reps, (x.id == qid) = true := by
    rcases Option.isSome_iff_exists.mp hex with ⟨q0, hq0⟩
    have hq0' : db.reps.find? (fun q => q.id == qid) = some q0 := hq0
    have hp := List.find?_some hq0'
    exact ⟨q0, List.mem_of_find?_eq_some hq0', hp⟩
  have hex2 : (get_representative_question_by_id (like_state db sid qid ip) qid).isSome
      = true := by
    rw [show get_representative_question_by_id (like_state db sid qid ip) qid =
        (like_state db sid qid ip).reps.find? (fun q => q.id == qid) from rfl,
      List.find?_isSome]
    exact List.any_eq_true.mp
      (any_updateFirst_of (fun q : RepQ => q.id == qid) (fun q : RepQ => q.id == qid)
        (fun q => { q with total_votes := q.total_votes + 1 }) db.reps
        (fun x _ hpx => hpx) hex0)
  have hchk2 : check_user_already_liked (like_state db sid qid ip) sid qid "question"
      = true := by
    simp [check_user_already_liked, like_state, List.any_append, likeMatches]
  have hremove : removeFirst (likeMatches sid qid "question")
      (db.likes ++ [⟨sid, qid, "question", some ip⟩]) = db.likes := by
    apply removeFirst_append_of_forall_neg
    · intro y hy
      have := List.any_eq_false.mp (by simpa [check_user_already_liked] using hnot) y hy
      exact Bool.eq_false_iff.mpr this
    · simp [likeMatches]
  have hcancel : updateFirst (fun q => q.id == qid && decide (0 < q.total_votes))
      (fun q => { q with total_votes := q.total_votes - 1 })
      (updateFirst (fun q => q.id == qid)
        (fun q => { q with total_votes := q.total_votes + 1 }) db.reps) = db.reps := by
    apply updateFirst_cancel
    · intro x hx
      simp only [Bool.and_eq_true] at hx
      exact hx.1
    · intro x hx hpx
      have hvx : (0 : Int) ≤ x.total_votes := by
        rw [hq x hx]
        exact Int.natCast_nonneg _
      refine ⟨?_, ?_⟩
      · show (x.id == qid && decide (0 < x.total_votes + 1)) = true
        rw [hpx]
        simp only [Bool.true_and, decide_eq_true_eq]
        omega
      · show ({ x with total_votes := x.total_votes + 1 - 1 } : RepQ) = x
        cases x
        simp
  rw [unlike_question_fst, if_pos hex2, safe_decrement_of_liked _ _ _ hchk2,
    decrement_rep_fst]
  show ({ like_state db sid qid ip with
      likes := removeFirst (likeMatches sid qid "question")
        (db.likes ++ [⟨sid, qid, "question", some ip⟩]),
      reps := (updateFirst (fun q => q.id == qid && decide (0 < q.total_votes))
        (fun q => { q with total_votes := q.total_votes - 1 })
        (updateFirst (fun q => q.id == qid)
          (fun q => { q with total_votes := q.total_votes + 1 }) db.reps)) } : DB) = db
  rw [hremove, hcancel]
  rfl

/-- A consistent state in which session "s" has already liked question 1:
one representative question with `total_votes = 1` and the matching Like
document. -/
def c2db : DB :=
  { reps := [{ id := 1, title := "t", total_votes := 1, status := "unanswered",
               raw_question_ids := [] }],
    raws := [], answers := [],
    likes := [{ session_id := "s", target_id := 1, target_type := "question",
                ip_address := none }],
    nextId := 2 }

/-- Counterexample to claim C2 as stated: in the consistent state `c2db`
the target question exists with `total_votes = 1`, session "s" executes
like(s,1) (rejected as a duplicate, no state change) followed by
unlike(s,1) (removes the pre-existing Like and decrements), after which
`total_votes = 0 ≠ 1`: the like/unlike pair does not leave the counter at
its prior value for a session that had already liked the target. -/
theorem c2_counterexample :
    VoteInv c2db ∧
    (get_representative_question_by_id c2db 1).map RepQ.total_votes = some 1 ∧
    (get_representative_question_by_id
        (unlike_question (like_question c2db "s" 1 "ip").1 "s" 1).1 1).map RepQ.total_votes
      = some 0 := by
  decide

/-- Claim C2 amended: for every consistent state, session S and existing
representative question T such that S has no Like record for T yet,
executing like(S,T) followed by unlike(S,T) restores the database exactly
(in particular `total_votes`(T) is unchanged), and no Like record for
(S,T,"question") remains.  (Amendment: when S had already liked T, the
like call is rejected and the unlike removes the pre-existing Like, so the
counter ends one lower — see the counterexample.) -/
theorem c2_like_unlike_roundtrip (db : DB) (sid : String) (qid : Nat) (ip : String)
    (hInv : VoteInv db)
    (hex : (get_representative_question_by_id db qid).isSome = true)
    (hnot : check_user_already_liked db sid qid "question" = false) :
    (unlike_question (like_question db sid qid ip).1 sid qid).1 = db ∧
    check_user_already_liked
      (unlike_question (like_question db sid qid ip).1 sid qid).1 sid qid "question"
      = false := by
  have h1 : (like_question db sid qid ip).1 = like_state db sid qid ip :=
    like_state_eq db sid qid ip hex hnot
  rw [h1]
  have h2 := unlike_of_like_state db sid qid ip hInv hex hnot
  exact ⟨h2, by rw [h2]; exact hnot⟩

/-- Fresh state for the C2 witness: one question, no likes yet. -/
def c2wdb : DB :=
  { reps := [{ id := 1, title := "t", total_votes := 0, status := "unanswered",
               raw_question_ids := [] }],
    raws := [], answers := [], likes := [], nextId := 2 }

theorem c2_like_unlike_roundtrip_witness :
    (unlike_question (like_question c2wdb "s" 1 "ip").1 "s" 1).1 = c2wdb ∧
    check_user_already_liked
      (unlike_question (like_question c2wdb "s" 1 "ip").1 "s" 1).1 "s" 1 "question"
      = false :=
  c2_like_unlike_roundtrip c2wdb "s" 1 "ip" (by decide) (by decide) (by decide)

/-! ## Claim C3: rejected unlike performs no mutation -/

theorem decrement_rep_isSome (db : DB) (qid : Nat)
    (hany : db.reps.any (fun q => q.id == qid && decide (0 < q.total_votes)) = true) :
    (decrement_representative_question_votes db qid).2.isSome = true := by
  simp only [decrement_representative_question_votes, hany, if_pos]
  rw [show get_representative_question_by_id
      { db with reps := (updateFirst (fun q => q.id == qid && decide (0 < q.total_votes))
        (fun q => { q with total_votes := q.total_votes - 1 }) db.reps) } qid =
      (updateFirst (fun q => q.id == qid && decide (0 < q.total_votes))
        (fun q => { q with total_votes := q.total_votes - 1 }) db.reps).find?
        (fun q => q.id == qid) from rfl]
  rw [List.find?_isSome]
  refine List.any_eq_true.mp (any_updateFirst_of _ _ _ _ ?_ ?_)
  · intro x _ hpx
    simp only [Bool.and_eq_true] at hpx
    exact hpx.1
  · exact List.any_eq_true.mp hany

theorem unlike_question_accepted (db : DB) (sid : String) (qid : Nat)
    (hex : (get_representative_question_by_id db qid).isSome = true)
    (hsome : (safe_decrement_votes_with_like_check db sid qid).2.isSome = true) :
    ∃ v, (unlike_question db sid qid).2 = .accepted v := by
  unfold unlike_question
  rcases Option.isSome_iff_exists.mp hex with ⟨q0, hq0⟩
  rw [hq0]
  rcases hs : safe_decrement_votes_with_like_check db sid qid with ⟨db', o⟩
  cases o with
  | none => rw [hs] at hsome; simp at hsome
  | some q' => exact ⟨q'.total_votes, rfl⟩

/-- Claim C3: whenever an unlike call on a representative question is
rejected (unknown id, or no Like record for the (session, target,
"question") tuple), the database — in particular the likes collection and
the question's `total_votes` — is unchanged.  The voting invariant is the
hypothesis tying the counter to the Like records; it holds in every
reachable state by C1. -/
theorem c3_unlike_rejected_no_mutation (db : DB) (sid : String) (qid : Nat)
    (hInv : VoteInv db) (hrej : ∀ v, (unlike_question db sid qid).2 ≠ .accepted v) :
    (unlike_question db sid qid).1 = db := by
  rw [unlike_question_fst]
  cases hget : get_representative_question_by_id db qid with
  | none => simp
  | some q0 =>
    simp only [Option.isSome_some, if_pos]
    by_cases hchk : check_user_already_liked db sid qid "question"
    · exfalso
      have hq0' : db.reps.find? (fun q => q.id == qid) = some q0 := hget
      have hp := List.find?_some hq0'
      have hmem := List.mem_of_find?_eq_some hq0'
      have hid : q0.id = qid := by simpa using hp
      have hcount : 1 ≤ countL db.likes qid "question" := by
        rcases List.any_eq_true.mp (by simpa [check_user_already_liked] using hchk) with
          ⟨l0, hl0, hm⟩
        obtain ⟨⟨hm1, hm2⟩, hm3⟩ :
            (l0.session_id = sid ∧ l0.target_id = qid) ∧ l0.target_type = "question" := by
          simpa [likeMatches] using hm
        exact countL_pos_of_mem db.likes l0 qid "question" hl0 hm2 hm3
      have hvote : q0.total_votes = (countL db.likes qid "question" : Int) := by
        have hv := hInv.2.2.2.1 q0 hmem
        rw [hid] at hv
        exact hv
      have hpos : 0 < q0.total_votes := by
        rw [hvote]
        exact_mod_cast hcount
      have hp2 : (q0.id == qid && decide (0 < q0.total_votes)) = true := by
        simp [hp, hpos]
      have hany2 : (remove_like db sid qid "question").reps.any
          (fun q => q.id == qid && decide (0 < q.total_votes)) = true :=
        List.any_eq_true.mpr ⟨q0, hmem, hp2⟩
      have hsome : (safe_decrement_votes_with_like_check db sid qid).2.isSome = true := by
        rw [safe_decrement_of_liked db sid qid hchk]
        exact decrement_rep_isSome _ qid hany2
      rcases unlike_question_accepted db sid qid (by rw [hget]; rfl) hsome with ⟨v, hv⟩
      exact hrej v hv
    · have hchk' : check_user_already_liked db sid qid "question" = false :=
        Bool.eq_false_iff.mpr hchk
      simp [safe_decrement_votes_with_like_check, hchk']

/-- State for the C3 witness: session "s" has not liked question 1. -/
def c3db : DB :=
  { reps := [{ id := 1, title := "t", total_votes := 0, status := "unanswered",
               raw_question_ids := [] }],
    raws := [], answers := [], likes := [], nextId := 2 }

theorem c3_unlike_rejected_no_mutation_witness :
    (unlike_question c3db "s" 1).1 = c3db :=
  c3_unlike_rejected_no_mutation c3db "s" 1 (by decide)
    (fun v h => by
      have hval : (unlike_question c3db "s" 1).2 = LikeOutcome.notLiked := by decide
      rw [hval] at h
      exact LikeOutcome.noConfusion h)

/-! ## Claim C4: validation stage (src/app/utils/ai_validator.py) -/

/-- Leading token for an acceptable question in the oracle's reply. -/
def acceptToken : String := "적합"

/-- Leading token for a rejected question in the oracle's reply. -/
def rejectToken : String := "부적합"

/-- The token-with-period removed when extracting a rejection reason. -/
def rejectTokenDot : String := "부적합."

/-- Embeds `ai_validator.validate_question_content`: strips the reply,
checks the accept prefix, then the reject prefix (extracting the reason by
deleting `rejectTokenDot` and stripping); any other reply and any raised
exception fall through to an accepting result with a neutral reason. -/
def validate_question_content (oracle : Except Unit String) : Bool × String :=
  match oracle with
  | .error _ => (true, "AI 검증 시스템 오류")
  | .ok t =>
    let r := pyStrip t
    if pyStartsWith r acceptToken then (true, "적합한 질문입니다.")
    else if pyStartsWith r rejectToken then
      (false, pyStrip (pyReplace r rejectTokenDot ""))
    else (true, "AI 판단 불가")

/-- Claim C4: the validation stage returns accepted with a neutral reason
whenever the (stripped) oracle reply starts with neither the accept token
nor the reject token, and whenever the oracle call raises; it returns
accepted = false, with the reason extracted by deleting the reject token,
only when the reply starts with the reject token. -/
theorem c4_validator_fails_open (t : String) (e : Unit) :
    (pyStartsWith (pyStrip t) acceptToken = false →
      pyStartsWith (pyStrip t) rejectToken = false →
      validate_question_content (Except.ok t) = (true, "AI 판단 불가")) ∧
    validate_question_content (Except.error e) = (true, "AI 검증 시스템 오류") ∧
    ((validate_question_content (Except.ok t)).1 = false →
      pyStartsWith (pyStrip t) rejectToken = true ∧
      (validate_question_content (Except.ok t)).2 =
        pyStrip (pyReplace (pyStrip t) rejectTokenDot "")) := by
  refine ⟨?_, rfl, ?_⟩
  · intro h1 h2
    simp [validate_question_content, h1, h2]
  · intro hfalse
    by_cases h1 : pyStartsWith (pyStrip t) acceptToken
    · simp [validate_question_content, h1] at hfalse
    · by_cases h2 : pyStartsWith (pyStrip t) rejectToken
      · refine ⟨h2, ?_⟩
        simp [validate_question_content, Bool.eq_false_iff.mpr h1, h2]
      · simp [validate_question_content, Bool.eq_false_iff.mpr h1,
          Bool.eq_false_iff.mpr h2] at hfalse

theorem c4_validator_fails_open_witness :
    validate_question_content (Except.ok "hello") = (true, "AI 판단 불가") ∧
    validate_question_content (Except.error ()) = (true, "AI 검증 시스템 오류") ∧
    (pyStartsWith (pyStrip "부적합. 광고입니다.") rejectToken = true ∧
      (validate_question_content (Except.ok "부적합. 광고입니다.")).2 =
        pyStrip (pyReplace (pyStrip "부적합. 광고입니다.") rejectTokenDot "")) :=
  ⟨(c4_validator_fails_open "hello" ()).1 (by decide) (by decide),
   (c4_validator_fails_open "hello" ()).2.1,
   (c4_validator_fails_open "부적합. 광고입니다." ()).2.2 (by decide)⟩

/-! ## Claim C5: similarity stage (src/app/utils/ai_similarity_checker.py) -/

/-- Function names defined at module level in src/app/crud.py — the
attribute table a `crud.<name>` lookup is resolved against.  Notably,
`get_all_rep_questions_for_similarity_check` is absent. -/
def crudModuleFunctions : List String :=
  ["create_post", "get_all_posts", "get_post_by_id", "update_post", "delete_post",
   "create_raw_question", "get_raw_questions_by_status",
   "save_representative_questions_and_update_raw_status",
   "get_all_representative_questions", "create_answer_for_question",
   "get_answer_for_question", "get_representative_question_by_id",
   "get_all_answered_questions", "increment_representative_question_votes",
   "decrement_representative_question_votes", "check_user_already_liked",
   "create_like", "remove_like", "safe_increment_votes_with_like_check",
   "safe_decrement_votes_with_like_check", "get_answer_by_id",
   "increment_answer_votes", "decrement_answer_votes",
   "safe_increment_answer_votes_with_like_check",
   "safe_decrement_answer_votes_with_like_check"]

/-- An unhandled Python exception escaping the similarity stage. -/
inductive PyFailure
  | attributeError
deriving DecidableEq

/-- Embeds `ai_similarity_checker.find_most_similar_question`.  The
candidate fetch `crud.get_all_rep_questions_for_similarity_check(db,
limit=100)` on line 15 resolves the attribute against crud.py's module
table and sits outside the function's try block, so when the attribute is
missing the call raises AttributeError before the empty-candidates check
or any oracle call.  The remaining logic (guarded behind the attribute
check) follows lines 16–66: empty candidate list → None without an oracle
call; empty or "none" reply → None; otherwise the reply is matched as an
id against the candidates (no match → None); an oracle exception → None.
The returned Bool records whether the oracle was consulted. -/
def find_most_similar_question (candidates : List RepQ) (oracle : Except Unit String) :
    Except PyFailure (Option RepQ × Bool) :=
  if crudModuleFunctions.contains "get_all_rep_questions_for_similarity_check" then
    if candidates.isEmpty then .ok (none, false)
    else
      match oracle with
      | .error _ => .ok (none, true)
      | .ok t =>
        if t = "" || pyLower t = "none" then .ok (none, true)
        else .ok (candidates.find? (fun q => objectIdToString q.id == pyStrip t), true)
  else .error .attributeError

/-- Claim C5 (code bug): as written, every call of the similarity stage —
in particular one with zero candidate representative questions — raises
AttributeError, because `crud.get_all_rep_questions_for_similarity_check`
is defined nowhere in the repository; the stage never returns None and
never reaches its fail-open handler. -/
theorem c5_similarity_stage_raises :
    find_most_similar_question [] (Except.ok "irrelevant")
      = Except.error PyFailure.attributeError ∧
    (∀ (candidates : List RepQ) (oracle : Except Unit String),
      find_most_similar_question candidates oracle
        = Except.error PyFailure.attributeError) := by
  have hc : "get_all_rep_questions_for_similarity_check" ∉ crudModuleFunctions := by
    decide
  exact ⟨by simp [find_most_similar_question, hc],
    fun c o => by simp [find_most_similar_question, hc]⟩

/-! ## Clustering pipeline (src/app/tasks/ai_pipeline.py, crud.py 123–181) -/

/-- One group object of the oracle's JSON reply; both keys are read with
`.get` and a default, so they are optional. -/
structure AIGroup where
  representative_question : Option String
  related_question_ids : Option (List String)
deriving DecidableEq

/-- The RepresentativeQuestion document built from one group (crud.py
142–166): title from the group with the "제목 없음" default, ids resolved
through `ObjectId(...)` with unparsable strings dropped non-fatally, and
the model defaults `total_votes = 0`, `status = "unanswered"`. -/
def mkRepQuestion (g : AIGroup) (fresh : Nat) : RepQ :=
  { id := fresh,
    title := g.representative_question.getD "제목 없음",
    total_votes := 0,
    status := "unanswered",
    raw_question_ids := (g.related_question_ids.getD []).filterMap objectIdOfString }

/-- Embeds `crud.get_raw_questions_by_status` (status filter, limit). -/
def get_raw_questions_by_status (db : DB) (status : RawQuestionStatus) (limit : Nat) :
    List RawQ :=
  (db.raws.filter fun r => decide (r.status = status)).take limit

/-- Embeds `crud.save_representative_questions_and_update_raw_status`:
early return on an empty group list; otherwise one insert per group
followed by a bulk update of every processed raw question to
REPRESENTED. -/
def save_representative_questions_and_update_raw_status (db : DB) (groups : List AIGroup)
    (processed : List RawQ) : DB :=
  if groups.isEmpty then db
  else
    { db with
      reps := db.reps ++ groups.enum.map (fun ig => mkRepQuestion ig.2 (db.nextId + ig.1)),
      raws := db.raws.map (fun r =>
        if (processed.map RawQ.id).contains r.id then { r with status := .represented }
        else r),
      nextId := db.nextId + groups.length }

/-- Markdown-fence stripping of the pipeline (ai_pipeline.py line 84). -/
def cleanedJson (t : String) : String :=
  pyReplace (pyReplace (pyStrip t) "```json" "") "```" ""

/-- Embeds `ai_pipeline.run_question_processing_pipeline`.  `parse` stands
for `json.loads` (standard library): `some gs` means the cleaned text
parses as a JSON array of group objects, `none` that `json.loads` raises.
An oracle error aborts the run (generic except clause); a parse failure
aborts the run (JSONDecodeError clause); both without any write. -/
def run_question_processing_pipeline (parse : String → Option (List AIGroup)) (db : DB)
    (oracle : Except Unit String) : DB :=
  let pending := get_raw_questions_by_status db .pending 100
  if pending.isEmpty then db
  else
    match oracle with
    | .error _ => db
    | .ok t =>
      match parse (cleanedJson t) with
      | none => db
      | some groups =>
        save_representative_questions_and_update_raw_status db groups pending

/-- Claim C6: if the cleaned oracle reply fails to parse as JSON, the run
leaves the database exactly unchanged — no RepresentativeQuestion is
inserted and every fetched RawQuestion still has status PENDING. -/
theorem c6_parse_failure_no_mutation (parse : String → Option (List AIGroup)) (db : DB)
    (t : String) (hparse : parse (cleanedJson t) = none) :
    run_question_processing_pipeline parse db (Except.ok t) = db ∧
    ∀ r ∈ get_raw_questions_by_status db .pending 100, r.status = .pending := by
  constructor
  · simp only [run_question_processing_pipeline, hparse]
    split <;> rfl
  · intro r hr
    have hmem := List.mem_filter.mp (List.mem_of_mem_take hr)
    simpa using hmem.2

/-- Database with a single PENDING raw question, used by the pipeline
claims' concrete instances. -/
def pdb : DB :=
  { reps := [],
    raws := [{ id := 1, content := "q", author_id := "u", status := .pending }],
    answers := [], likes := [], nextId := 10 }

/-- Stands for `json.loads` on an input that is not JSON: always raises. -/
def parseNone : String → Option (List AIGroup) := fun _ => none

theorem c6_parse_failure_no_mutation_witness :
    run_question_processing_pipeline parseNone pdb (Except.ok "not json") = pdb ∧
    ∀ r ∈ get_raw_questions_by_status pdb .pending 100, r.status = .pending :=
  c6_parse_failure_no_mutation parseNone pdb "not json" rfl

/-! ## Claim C7: groups saved, batch marked REPRESENTED -/

/-- Stands for `json.loads` on the reply "[]": a JSON array of zero
groups. -/
def parseEmptyArray : String → Option (List AIGroup) :=
  fun s => if s = "[]" then some [] else none

/-- Counterexample to claim C7 as stated: the oracle reply "[]" parses as
a JSON array of groups (zero of them), yet the fetched PENDING raw
question is NOT updated to REPRESENTED — the save step returns early on an
empty list (crud.py line 135) before the bulk status update, so the batch
stays PENDING. -/
theorem c7_counterexample :
    parseEmptyArray (cleanedJson "[]") = some [] ∧
    get_raw_questions_by_status pdb .pending 100 =
      [{ id := 1, content := "q", author_id := "u", status := .pending }] ∧
    (run_question_processing_pipeline parseEmptyArray pdb (Except.ok "[]")).raws =
      [{ id := 1, content := "q", author_id := "u", status := .pending }] := by
  decide

/-- Claim C7 amended: when the cleaned oracle reply parses as a NON-EMPTY
JSON array of groups (the empty array hits the save step's early return
and leaves the batch PENDING — see the counterexample), one
RepresentativeQuestion per group is appended, each with the group's
resolved ids (unparsable ids dropped), `total_votes = 0` and status
"unanswered", and every raw question whose id is in the fetched PENDING
batch — regardless of whether any group references it — is updated to
REPRESENTED, all others left untouched. -/
theorem c7_groups_saved (parse : String → Option (List AIGroup)) (db : DB) (t : String)
    (groups : List AIGroup)
    (hparse : parse (cleanedJson t) = some groups)
    (hg : groups ≠ [])
    (hp : get_raw_questions_by_status db .pending 100 ≠ []) :
    (run_question_processing_pipeline parse db (Except.ok t)).reps =
      db.reps ++ groups.enum.map (fun ig => mkRepQuestion ig.2 (db.nextId + ig.1)) ∧
    (∀ g fresh, (mkRepQuestion g fresh).total_votes = 0 ∧
      (mkRepQuestion g fresh).status = "unanswered" ∧
      (mkRepQuestion g fresh).raw_question_ids =
        (g.related_question_ids.getD []).filterMap objectIdOfString) ∧
    (run_question_processing_pipeline parse db (Except.ok t)).raws =
      db.raws.map (fun r =>
        if ((get_raw_questions_by_status db .pending 100).map RawQ.id).contains r.id then
          { r with status := .represented }
        else r) ∧
    (∀ r ∈ (run_question_processing_pipeline parse db (Except.ok t)).raws,
      ((get_raw_questions_by_status db .pending 100).map RawQ.id).contains r.id = true →
        r.status = .represented) := by
  have hrun : run_question_processing_pipeline parse db (Except.ok t) =
      save_representative_questions_and_update_raw_status db groups
        (get_raw_questions_by_status db .pending 100) := by
    simp only [run_question_processing_pipeline, hparse]
    rw [if_neg (by simpa [List.isEmpty_iff] using hp)]
  have hsave : save_representative_questions_and_update_raw_status db groups
      (get_raw_questions_by_status db .pending 100) =
      { db with
        reps := db.reps ++
          groups.enum.map (fun ig => mkRepQuestion ig.2 (db.nextId + ig.1)),
        raws := db.raws.map (fun r =>
          if ((get_raw_questions_by_status db .pending 100).map RawQ.id).contains r.id
          then { r with status := .represented } else r),
        nextId := db.nextId + groups.length } := by
    simp only [save_representative_questions_and_update_raw_status]
    rw [if_neg (by simpa [List.isEmpty_iff] using hg)]
  refine ⟨by rw [hrun, hsave], fun g fresh => ⟨rfl, rfl, rfl⟩, by rw [hrun, hsave], ?_⟩
  rw [hrun, hsave]
  intro r hr hcont
  rcases List.mem_map.mp hr with ⟨r0, hr0, rfl⟩
  by_cases hc0 : ((get_raw_questions_by_status db .pending 100).map RawQ.id).contains r0.id
  · simp only [hc0, if_pos]
  · rw [if_neg (by simpa using hc0)] at hcont ⊢
    rw [hcont] at hc0
    exact absurd rfl hc0

/-- The clustering group of the C7 scenario: two resolvable ids and one
unparsable one. -/
def c7group : AIGroup :=
  { representative_question := some "Improve video quality",
    related_question_ids := some
      ["000000000000000000000001", "000000000000000000000002", "zzz"] }

/-- Two PENDING raw questions, ids 1 and 2. -/
def c7wdb : DB :=
  { reps := [],
    raws := [{ id := 1, content := "a", author_id := "u", status := .pending },
             { id := 2, content := "b", author_id := "v", status := .pending }],
    answers := [], likes := [], nextId := 7 }

/-- Stands for `json.loads` on the single-group clustering reply. -/
def parse7 : String → Option (List AIGroup) := fun _ => some [c7group]

theorem c7_groups_saved_witness :
    (run_question_processing_pipeline parse7 c7wdb (Except.ok "reply")).reps =
      c7wdb.reps ++
        [c7group].enum.map (fun ig => mkRepQuestion ig.2 (c7wdb.nextId + ig.1)) ∧
    (∀ g fresh, (mkRepQuestion g fresh).total_votes = 0 ∧
      (mkRepQuestion g fresh).status = "unanswered" ∧
      (mkRepQuestion g fresh).raw_question_ids =
        (g.related_question_ids.getD []).filterMap objectIdOfString) ∧
    (run_question_processing_pipeline parse7 c7wdb (Except.ok "reply")).raws =
      c7wdb.raws.map (fun r =>
        if ((get_raw_questions_by_status c7wdb .pending 100).map RawQ.id).contains r.id
        then { r with status := .represented }
        else r) ∧
    (∀ r ∈ (run_question_processing_pipeline parse7 c7wdb (Except.ok "reply")).raws,
      ((get_raw_questions_by_status c7wdb .pending 100).map RawQ.id).contains r.id = true →
        r.status = .represented) :=
  c7_groups_saved parse7 c7wdb "reply" [c7group] rfl (by decide) (by decide)

/-! ## Claim C9: provenance of raw_question_ids on inserted documents -/

theorem snd_mem_of_mem_enumFrom {α : Type} :
    ∀ (l : List α) (n : Nat) (p : Nat × α), p ∈ l.enumFrom n → p.2 ∈ l := by
  intro l
  induction l with
  | nil => intro n p h; simp [List.enumFrom] at h
  | cons x xs ih =>
    intro n p h
    rcases List.mem_cons.mp h with rfl | h'
    · simp
    · exact List.mem_cons_of_mem _ (ih (n + 1) p h')

/-- The raw question of the C9 scenario, id 1. -/
def c9raw : RawQ := { id := 1, content := "q", author_id := "u", status := .pending }

/-- A state whose PENDING batch is exactly {id 1}. -/
def c9db : DB := { reps := [], raws := [c9raw], answers := [], likes := [], nextId := 50 }

/-- A clustering group whose `related_question_ids` holds a syntactically
valid ObjectId (value 12) that does not belong to the fetched batch. -/
def c9group : AIGroup :=
  { representative_question := some "X",
    related_question_ids := some ["00000000000000000000000c"] }

/-- Stands for `json.loads` on the hallucinated-id clustering reply. -/
def parse9 : String → Option (List AIGroup) := fun _ => some [c9group]

/-- Counterexample to claim C9 as stated: the oracle reply names the valid
ObjectId 0x…00c (= 12), which is not in the fetched PENDING batch {1}; the
pipeline nevertheless inserts a RepresentativeQuestion whose
raw_question_ids is [12] — an entry outside the batch. -/
theorem c9_counterexample :
    (get_raw_questions_by_status c9db .pending 100).map RawQ.id = [1] ∧
    (∃ q ∈ (run_question_processing_pipeline parse9 c9db (Except.ok "w")).reps,
      q.raw_question_ids = [12] ∧
        ¬(12 ∈ (get_raw_questions_by_status c9db .pending 100).map RawQ.id)) := by
  decide

/-- Claim C9 amended: every raw_question_ids entry of a
RepresentativeQuestion inserted by the pipeline is the `ObjectId` parse of
some string of its group's `related_question_ids` (unparsable strings
dropped); the code performs no membership check against the fetched
PENDING batch, so nothing ties those entries to the batch. -/
theorem c9_inserted_ids_come_from_group (parse : String → Option (List AIGroup))
    (db : DB) (t : String) (groups : List AIGroup)
    (hparse : parse (cleanedJson t) = some groups) :
    ∀ q ∈ (run_question_processing_pipeline parse db (Except.ok t)).reps,
      q ∈ db.reps ∨ ∃ g ∈ groups,
        q.raw_question_ids = (g.related_question_ids.getD []).filterMap objectIdOfString := by
  intro q hq
  by_cases hpe : (get_raw_questions_by_status db .pending 100).isEmpty
  · left
    simpa [run_question_processing_pipeline, hpe] using hq
  · rw [show run_question_processing_pipeline parse db (Except.ok t) =
        save_representative_questions_and_update_raw_status db groups
          (get_raw_questions_by_status db .pending 100) by
      simp [run_question_processing_pipeline, hpe, hparse]] at hq
    by_cases hge : groups.isEmpty
    · left
      simpa [save_representative_questions_and_update_raw_status, hge] using hq
    · rw [show save_representative_questions_and_update_raw_status db groups
          (get_raw_questions_by_status db .pending 100) =
          { db with
            reps := db.reps ++
              groups.enum.map (fun ig => mkRepQuestion ig.2 (db.nextId + ig.1)),
            raws := db.raws.map (fun r =>
              if ((get_raw_questions_by_status db .pending 100).map RawQ.id).contains r.id
              then { r with status := .represented } else r),
            nextId := db.nextId + groups.length } by
        simp [save_representative_questions_and_update_raw_status, hge]] at hq
      rcases List.mem_append.mp hq with hql | hqr
      · exact Or.inl hql
      · right
        rcases List.mem_map.mp hqr with ⟨ig, hig, rfl⟩
        exact ⟨ig.2, snd_mem_of_mem_enumFrom groups 0 ig hig, rfl⟩

theorem c9_inserted_ids_come_from_group_witness :
    mkRepQuestion c9group 50 ∈
      (run_question_processing_pipeline parse9 c9db (Except.ok "w")).reps ∧
    (mkRepQuestion c9group 50 ∈ c9db.reps ∨ ∃ g ∈ [c9group],
      (mkRepQuestion c9group 50).raw_question_ids =
        (g.related_question_ids.getD []).filterMap objectIdOfString) :=
  ⟨by decide,
   c9_inserted_ids_come_from_group parse9 c9db "w" [c9group] rfl
     (mkRepQuestion c9group 50) (by decide)⟩

/-! ## Claim C8: answer creation (src/app/routers/answers.py, crud.py 220–313) -/

/-- Embeds `crud.get_answer_for_question` (`find_one` by
`representative_question_id`). -/
def get_answer_for_question (db : DB) (qid : Nat) : Option AnswerDoc :=
  db.answers.find? fun ans => ans.representative_question_id == qid

/-- Embeds `crud.create_answer_for_question`: insert the Answer document,
set the representative question's status to "answered" (update of the
first document with the id), re-fetch it, and cascade every raw question
referenced by its `raw_question_ids` to status ANSWERED.  The source's
string/ObjectId fallback chain for the cascade collapses under canonical
ids to the single `$in` update; a missing or empty id list updates
nothing. -/
def create_answer_for_question (db : DB) (a : AnswerCreate) : DB × AnswerDoc :=
  let ans : AnswerDoc :=
    { id := db.nextId, content := a.content, author_id := a.author_id,
      representative_question_id := a.representative_question_id,
      total_votes := a.total_votes }
  let db1 : DB := { db with answers := db.answers ++ [ans], nextId := db.nextId + 1 }
  let db2 : DB := { db1 with
    reps := (updateFirst (fun q => q.id == a.representative_question_id)
      (fun q => { q with status := "answered" }) db1.reps) }
  match db2.reps.find? (fun q => q.id == a.representative_question_id) with
  | some rq =>
    ({ db2 with raws := db2.raws.map (fun r =>
        if rq.raw_question_ids.contains r.id then { r with status := .answered }
        else r) }, ans)
  | none => (db2, ans)

/-- Outcome of the `POST /answers` endpoint. -/
inductive AnswerOutcome
  | created (ans : AnswerDoc)
  | questionNotFound
  | alreadyAnswered
deriving DecidableEq

/-- Embeds the `POST /answers` handler (`create_answer`): 404 when the
question does not exist, 400 when an answer already exists, otherwise the
crud creation. -/
def create_answer (db : DB) (a : AnswerCreate) : DB × AnswerOutcome :=
  match get_representative_question_by_id db a.representative_question_id with
  | none => (db, .questionNotFound)
  | some _ =>
    match get_answer_for_question db a.representative_question_id with
    | some _ => (db, .alreadyAnswered)
    | none =>
      match create_answer_for_question db a with
      | (db', ans) => (db', .created ans)

theorem find?_updateFirst_map (p : α → Bool) (f : α → α)
    (hf : ∀ x, p x = true → p (f x) = true) :
    ∀ l : List α, (updateFirst p f l).find? p = (l.find? p).map f := by
  intro l
  induction l with
  | nil => rfl
  | cons x xs ih =>
    by_cases hx : p x
    · rw [show updateFirst p f (x :: xs) = f x :: xs by simp [updateFirst, hx],
        List.find?_cons_of_pos _ (hf x hx), List.find?_cons_of_pos _ hx]
      rfl
    · rw [show updateFirst p f (x :: xs) = x :: updateFirst p f xs by simp [updateFirst, hx],
        List.find?_cons_of_neg _ hx, List.find?_cons_of_neg _ hx, ih]

theorem find?_append_some_right (p : α → Bool) (x : α) :
    ∀ l : List α, l.find? p = none → p x = true → (l ++ [x]).find? p = some x := by
  intro l hl hx
  induction l with
  | nil => simp [List.find?_cons_of_pos _ hx]
  | cons z zs ih =>
    rw [List.find?_eq_none] at hl
    rw [List.cons_append, List.find?_cons_of_neg _ (hl z (by simp))]
    exact ih (List.find?_eq_none.mpr fun y hy => hl y (by simp [hy]))

theorem create_answer_for_question_eq (db : DB) (a : AnswerCreate) (q0 : RepQ)
    (hq : db.reps.find? (fun q => q.id == a.representative_question_id) = some q0) :
    create_answer_for_question db a =
      ({ db with
          answers := db.answers ++ [⟨db.nextId, a.content, a.author_id,
            a.representative_question_id, a.total_votes⟩],
          nextId := db.nextId + 1,
          reps := (updateFirst (fun q => q.id == a.representative_question_id)
            (fun q => { q with status := "answered" }) db.reps),
          raws := db.raws.map (fun r =>
            if q0.raw_question_ids.contains r.id then { r with status := .answered }
            else r) },
        ⟨db.nextId, a.content, a.author_id, a.representative_question_id,
          a.total_votes⟩) := by
  have hfind2 : (updateFirst (fun q => q.id == a.representative_question_id)
      (fun q => { q with status := "answered" }) db.reps).find?
      (fun q => q.id == a.representative_question_id)
      = some { q0 with status := "answered" } := by
    rw [find?_updateFirst_map (fun q : RepQ => q.id == a.representative_question_id)
        (fun q : RepQ => { q with status := "answered" }) (fun x hx => hx) db.reps, hq]
    rfl
  simp only [create_answer_for_question]
  rw [hfind2]

/-- Claim C8: answer creation is rejected without mutation when the
question does not exist or an answer already exists; on success the
Answer document is persisted, the representative question's status becomes
"answered", every raw question referenced by its `raw_question_ids` gets
status ANSWERED, and a second creation attempt for the same question is
rejected without further mutation. -/
theorem c8_create_answer_lifecycle (db : DB) (a : AnswerCreate) :
    (get_representative_question_by_id db a.representative_question_id = none →
      create_answer db a = (db, .questionNotFound)) ∧
    ((get_representative_question_by_id db a.representative_question_id).isSome = true →
      (get_answer_for_question db a.representative_question_id).isSome = true →
      create_answer db a = (db, .alreadyAnswered)) ∧
    (∀ q0, get_representative_question_by_id db a.representative_question_id = some q0 →
      get_answer_for_question db a.representative_question_id = none →
      ∃ ans, create_answer db a = ((create_answer_for_question db a).1, .created ans) ∧
        ans ∈ (create_answer_for_question db a).1.answers ∧
        ans.representative_question_id = a.representative_question_id ∧
        ans.content = a.content ∧
        (create_answer_for_question db a).1.reps.find?
            (fun q => q.id == a.representative_question_id)
          = some { q0 with status := "answered" } ∧
        (∀ r ∈ (create_answer_for_question db a).1.raws,
          q0.raw_question_ids.contains r.id = true → r.status = .answered) ∧
        create_answer (create_answer_for_question db a).1 a
          = ((create_answer_for_question db a).1, .alreadyAnswered)) := by
  refine ⟨?_, ?_, ?_⟩
  · intro h
    simp [create_answer, h]
  · intro h1 h2
    rcases Option.isSome_iff_exists.mp h1 with ⟨q0, hq0⟩
    rcases Option.isSome_iff_exists.mp h2 with ⟨a0, ha0⟩
    simp [create_answer, hq0, ha0]
  · intro q0 hq hna
    have hq' : db.reps.find? (fun q => q.id == a.representative_question_id) = some q0 := hq
    have hc := create_answer_for_question_eq db a q0 hq'
    have hfind2 : (updateFirst (fun q => q.id == a.representative_question_id)
        (fun q => { q with status := "answered" }) db.reps).find?
        (fun q => q.id == a.representative_question_id)
        = some { q0 with status := "answered" } := by
      rw [find?_updateFirst_map (fun q : RepQ => q.id == a.representative_question_id)
          (fun q : RepQ => { q with status := "answered" }) (fun x hx => hx) db.reps, hq']
      rfl
    refine ⟨⟨db.nextId, a.content, a.author_id, a.representative_question_id,
      a.total_votes⟩, ?_, ?_, rfl, rfl, ?_, ?_, ?_⟩
    · simp [create_answer, hq, hna, hc]
    · rw [hc]
      simp
    · rw [hc]
      exact hfind2
    · rw [hc]
      intro r hr hcont
      rcases List.mem_map.mp hr with ⟨r0, hr0, rfl⟩
      by_cases hc0 : q0.raw_question_ids.contains r0.id
      · simp only [hc0, if_pos]
      · rw [if_neg (by simpa using hc0)] at hcont ⊢
        rw [hcont] at hc0
        exact absurd rfl hc0
    · have hans' : (db.answers ++ [(⟨db.nextId, a.content, a.author_id,
          a.representative_question_id, a.total_votes⟩ : AnswerDoc)]).find?
          (fun ans => ans.representative_question_id == a.representative_question_id)
          = some ⟨db.nextId, a.content, a.author_id, a.representative_question_id,
            a.total_votes⟩ := by
        apply find?_append_some_right
        · exact hna
        · simp
      rw [hc]
      simp only [create_answer, get_representative_question_by_id,
        get_answer_for_question]
      rw [show ({ db with
          answers := db.answers ++ [⟨db.nextId, a.content, a.author_id,
            a.representative_question_id, a.total_votes⟩],
          nextId := db.nextId + 1,
          reps := (updateFirst (fun q => q.id == a.representative_question_id)
            (fun q => { q with status := "answered" }) db.reps),
          raws := db.raws.map (fun r =>
            if q0.raw_question_ids.contains r.id then { r with status := .answered }
            else r) } : DB).reps.find? (fun q => q.id == a.representative_question_id)
          = some { q0 with status := "answered" } from hfind2]
      rw [show ({ db with
          answers := db.answers ++ [⟨db.nextId, a.content, a.author_id,
            a.representative_question_id, a.total_votes⟩],
          nextId := db.nextId + 1,
          reps := (updateFirst (fun q => q.id == a.representative_question_id)
            (fun q => { q with status := "answered" }) db.reps),
          raws := db.raws.map (fun r =>
            if q0.raw_question_ids.contains r.id then { r with status := .answered }
            else r) } : DB).answers.find?
            (fun ans => ans.representative_question_id == a.representative_question_id)
          = some ⟨db.nextId, a.content, a.author_id, a.representative_question_id,
            a.total_votes⟩ from hans']

/-- The representative question of the C8 scenario, referencing raw
questions 1 and 2. -/
def q8 : RepQ :=
  { id := 5, title := "t", total_votes := 0, status := "unanswered",
    raw_question_ids := [1, 2] }

/-- State of the C8 scenario before any answer exists. -/
def c8db : DB :=
  { reps := [q8],
    raws := [{ id := 1, content := "a", author_id := "u", status := .represented },
             { id := 2, content := "b", author_id := "v", status := .represented }],
    answers := [], likes := [], nextId := 100 }

/-- Valid answer-creation request for question 5. -/
def a8 : AnswerCreate :=
  { content := "official", author_id := "admin", representative_question_id := 5,
    total_votes := 0 }

/-- Answer-creation request for a nonexistent question. -/
def a8bad : AnswerCreate :=
  { content := "x", author_id := "admin", representative_question_id := 77,
    total_votes := 0 }

/-- Same state as `c8db` but with an answer for question 5 already
present. -/
def prevAnswer : AnswerDoc :=
  { id := 9, content := "prev", author_id := "adm",
    representative_question_id := 5, total_votes := 0 }

def c8db2 : DB := { c8db with answers := [prevAnswer] }

theorem c8_create_answer_lifecycle_witness :
    create_answer c8db a8bad = (c8db, .questionNotFound) ∧
    create_answer c8db2 a8 = (c8db2, .alreadyAnswered) ∧
    (∃ ans, create_answer c8db a8 = ((create_answer_for_question c8db a8).1, .created ans) ∧
      ans ∈ (create_answer_for_question c8db a8).1.answers ∧
      ans.representative_question_id = a8.representative_question_id ∧
      ans.content = a8.content ∧
      (create_answer_for_question c8db a8).1.reps.find?
          (fun q => q.id == a8.representative_question_id)
        = some { q8 with status := "answered" } ∧
      (∀ r ∈ (create_answer_for_question c8db a8).1.raws,
        q8.raw_question_ids.contains r.id = true → r.status = .answered) ∧
      create_answer (create_answer_for_question c8db a8).1 a8
        = ((create_answer_for_question c8db a8).1, .alreadyAnswered)) :=
  ⟨(c8_create_answer_lifecycle c8db a8bad).1 (by decide),
   (c8_create_answer_lifecycle c8db2 a8).2.1 (by decide) (by decide),
   (c8_create_answer_lifecycle c8db a8).2.2 q8 (by decide) (by decide)⟩

/-! ## Claim C10: representative-question listing (crud.py 188–213) -/

/-- Insertion into a list kept sorted by `total_votes` descending. -/
def insertByVotesDesc (q : RepQ) : List RepQ → List RepQ
  | [] => [q]
  | x :: xs =>
    if x.total_votes < q.total_votes then q :: x :: xs
    else x :: insertByVotesDesc q xs

/-- Insertion sort by `total_votes` descending, modelling Mongo's
`sort("total_votes", -1)` (tie order is unspecified by Mongo; any
order consistent with the sort key is a faithful model). -/
def sortByVotesDesc : List RepQ → List RepQ
  | [] => []
  | x :: xs => insertByVotesDesc x (sortByVotesDesc xs)

/-- Embeds `crud.get_all_representative_questions`: filter
`status = "unanswered"`, sort by `total_votes` descending, then the
skip/limit page. -/
def get_all_representative_questions (db : DB) (skip limit : Nat) : List RepQ :=
  ((sortByVotesDesc (db.reps.filter fun q => q.status == "unanswered")).drop skip).take
    limit

theorem mem_insertByVotesDesc (q y : RepQ) :
    ∀ l : List RepQ, y ∈ insertByVotesDesc q l → y = q ∨ y ∈ l := by
  intro l h
  induction l with
  | nil => simpa [insertByVotesDesc] using h
  | cons x xs ih =>
    by_cases hx : x.total_votes < q.total_votes
    · have h' : y = q ∨ y = x ∨ y ∈ xs := by simpa [insertByVotesDesc, hx] using h
      rcases h' with rfl | rfl | h''
      · exact Or.inl rfl
      · exact Or.inr (by simp)
      · exact Or.inr (by simp [h''])
    · have h' : y = x ∨ y ∈ insertByVotesDesc q xs := by
        simpa [insertByVotesDesc, hx] using h
      rcases h' with rfl | h''
      · exact Or.inr (by simp)
      · rcases ih h'' with rfl | h3
        · exact Or.inl rfl
        · exact Or.inr (by simp [h3])

theorem mem_sortByVotesDesc (y : RepQ) :
    ∀ l : List RepQ, y ∈ sortByVotesDesc l → y ∈ l := by
  intro l
  induction l with
  | nil => simp [sortByVotesDesc]
  | cons x xs ih =>
    intro h
    rcases mem_insertByVotesDesc x y (sortByVotesDesc xs) h with rfl | h'
    · simp
    · exact List.mem_cons_of_mem _ (ih h')

theorem sorted_insertByVotesDesc (q : RepQ) :
    ∀ l : List RepQ, l.Sorted (fun a b => b.total_votes ≤ a.total_votes) →
      (insertByVotesDesc q l).Sorted (fun a b => b.total_votes ≤ a.total_votes) := by
  intro l h
  induction l with
  | nil => simp [insertByVotesDesc]
  | cons x xs ih =>
    rw [List.sorted_cons] at h
    by_cases hx : x.total_votes < q.total_votes
    · rw [show insertByVotesDesc q (x :: xs) = q :: x :: xs by
        simp [insertByVotesDesc, hx]]
      rw [List.sorted_cons]
      refine ⟨?_, List.sorted_cons.mpr h⟩
      intro b hb
      rcases List.mem_cons.mp hb with rfl | hbxs
      · exact le_of_lt hx
      · exact le_trans (h.1 b hbxs) (le_of_lt hx)
    · rw [show insertByVotesDesc q (x :: xs) = x :: insertByVotesDesc q xs by
        simp [insertByVotesDesc, hx]]
      rw [List.sorted_cons]
      refine ⟨?_, ih h.2⟩
      intro b hb
      rcases mem_insertByVotesDesc q b xs hb with rfl | hbxs
      · omega
      · exact h.1 b hbxs

theorem sorted_sortByVotesDesc :
    ∀ l : List RepQ,
      (sortByVotesDesc l).Sorted (fun a b => b.total_votes ≤ a.total_votes) := by
  intro l
  induction l with
  | nil => simp [sortByVotesDesc]
  | cons x xs ih => exact sorted_insertByVotesDesc x (sortByVotesDesc xs) ih

theorem mem_updateFirst_eq_key {α : Type} (key : α → Nat) (p : α → Bool) (f : α → α)
    (k : Nat) (hp : ∀ x, p x = true ↔ key x = k) :
    ∀ l : List α, (l.map key).Nodup →
      ∀ y ∈ updateFirst p f l, key y = k → ∃ x, x ∈ l ∧ y = f x := by
  intro l
  induction l with
  | nil => intro _ y hy; simp [updateFirst] at hy
  | cons x xs ih =>
    intro hnd y hy hk
    by_cases hx : p x
    · rcases List.mem_cons.mp (by simpa [updateFirst, hx] using hy) with rfl | hmem
      · exact ⟨x, by simp, rfl⟩
      · exfalso
        have hkx : key x = k := (hp x).mp hx
        have : key y ∈ xs.map key := List.mem_map_of_mem key hmem
        rw [hk, ← hkx] at this
        exact (List.nodup_cons.mp (by simpa using hnd)).1 this
    · rcases List.mem_cons.mp (by simpa [updateFirst, hx] using hy) with rfl | hmem
      · exact absurd ((hp y).mpr hk) hx
      · rcases ih (List.Nodup.of_cons (by simpa using hnd)) y hmem hk with ⟨x', hx', rfl⟩
        exact ⟨x', by simp [hx'], rfl⟩

/-- Claim C10: the representative-question listing contains only
questions with status "unanswered", is sorted by `total_votes`
descending, and is exactly the skip/limit page of the sorted filtered
collection; consequently, once an answer is created for a question (ids
being distinct), that question no longer appears in the listing. -/
theorem c10_listing_unanswered_sorted (db : DB) (skip limit : Nat) :
    (∀ q ∈ get_all_representative_questions db skip limit,
      q.status = "unanswered" ∧ q ∈ db.reps) ∧
    (get_all_representative_questions db skip limit).Sorted
      (fun a b => b.total_votes ≤ a.total_votes) ∧
    get_all_representative_questions db skip limit =
      ((sortByVotesDesc (db.reps.filter fun q => q.status == "unanswered")).drop
        skip).take limit ∧
    (∀ a : AnswerCreate, (db.reps.map RepQ.id).Nodup →
      ∀ q ∈ get_all_representative_questions (create_answer_for_question db a).1 skip
        limit, q.id ≠ a.representative_question_id) := by
  refine ⟨?_, ?_, rfl, ?_⟩
  · intro q hq
    have h1 : q ∈ sortByVotesDesc (db.reps.filter fun q => q.status == "unanswered") :=
      List.mem_of_mem_drop (List.mem_of_mem_take hq)
    have h2 := List.mem_filter.mp (mem_sortByVotesDesc q _ h1)
    exact ⟨by simpa using h2.2, h2.1⟩
  · exact List.Pairwise.sublist
      (List.Sublist.trans (List.take_sublist _ _) (List.drop_sublist _ _))
      (sorted_sortByVotesDesc _)
  · intro a hnd q hq hqid
    have h1 : q ∈ sortByVotesDesc ((create_answer_for_question db a).1.reps.filter
        fun q => q.status == "unanswered") :=
      List.mem_of_mem_drop (List.mem_of_mem_take hq)
    have h2 := List.mem_filter.mp (mem_sortByVotesDesc q _ h1)
    have hreps : (create_answer_for_question db a).1.reps =
        (updateFirst (fun q => q.id == a.representative_question_id)
          (fun q => { q with status := "answered" }) db.reps) := by
      simp only [create_answer_for_question]
      split <;> rfl
    rw [hreps] at h2
    rcases mem_updateFirst_eq_key RepQ.id
        (fun q => q.id == a.representative_question_id)
        (fun q => { q with status := "answered" }) a.representative_question_id
        (fun x => by simp) db.reps hnd q h2.1 hqid with ⟨x, hx, rfl⟩
    have hcon : (({ x with status := "answered" } : RepQ).status == "unanswered")
        = true := h2.2
    simp at hcon

/-- Three questions: two unanswered (votes 3 and 7) and one answered. -/
def q10a : RepQ :=
  { id := 1, title := "A", total_votes := 3, status := "unanswered",
    raw_question_ids := [] }

def q10b : RepQ :=
  { id := 2, title := "B", total_votes := 7, status := "unanswered",
    raw_question_ids := [] }

def q10c : RepQ :=
  { id := 3, title := "C", total_votes := 5, status := "answered",
    raw_question_ids := [] }

def c10db : DB :=
  { reps := [q10a, q10b, q10c], raws := [], answers := [], likes := [], nextId := 10 }

/-- Answer-creation request for question 2. -/
def a10 : AnswerCreate :=
  { content := "ans", author_id := "adm", representative_question_id := 2,
    total_votes := 0 }

theorem c10_listing_unanswered_sorted_witness :
    (∀ q ∈ get_all_representative_questions c10db 0 10,
      q.status = "unanswered" ∧ q ∈ c10db.reps) ∧
    (get_all_representative_questions c10db 0 10).Sorted
      (fun a b => b.total_votes ≤ a.total_votes) ∧
    get_all_representative_questions c10db 0 10 =
      ((sortByVotesDesc (c10db.reps.filter fun q => q.status == "unanswered")).drop
        0).take 10 ∧
    (∀ q ∈ get_all_representative_questions (create_answer_for_question c10db a10).1 0
      10, q.id ≠ a10.representative_question_id) := by
  have h := c10_listing_unanswered_sorted c10db 0 10
  exact ⟨h.1, h.2.1, h.2.2.1, fun q hq => h.2.2.2 a10 (by decide) q hq⟩
